import Mathlib

/-!
Shallow embedding of the multi-modal routing engine of the galactic star map
application (`src/app.py`, `calculate_path` and its helpers), together with
theorems settling the specification claims about it.

Modelling conventions:
* Python `decimal.Decimal` values are modelled as exact rationals (`ℚ`).
* The explicit `float(...)` conversion applied to the position difference,
  and Python `round(x, 2)`, are modelled by `floatRound`, the IEEE-754
  binary64 round-to-nearest-even map on rationals (normal range; the
  routing values never approach overflow or the subnormal range).
* Subsequent cost arithmetic (multiplication by the integer penalty factor,
  subtraction of the catapult radius, accumulation of distances) is done by
  the source on Python floats; it is modelled in exact rational arithmetic.
  On every concrete input appearing in the theorems below those operations
  are exact in binary64 as well, so the model and the source agree there.
* Dictionaries are modelled as association lists in insertion order; the
  distance map omits entries still at `+inf` and the predecessor map omits
  entries still at `(None, None)`, which is observationally the dict the
  source maintains. The Python heap is modelled by its observable
  behaviour, extraction of the minimal (distance, id) pair in
  lexicographic order.
-/

namespace StarMap

/-- Value of a run of decimal digit characters, most significant first,
as Python integer conversion computes it. -/
def digitsVal (cs : List Char) : ℕ :=
  cs.foldl (fun a c => 10 * a + (c.toNat - 48)) 0

/-- All characters in the list are decimal digits. -/
def allDigits (cs : List Char) : Bool :=
  cs.all (fun c => c.isDigit)

/-- Split a character list at every occurrence of `sep`, keeping empty
pieces, mirroring the behaviour of Python `str.split` with an explicit
separator string of one character. -/
def splitOnChar (sep : Char) : List Char → List (List Char)
  | [] => [[]]
  | c :: rest =>
    match splitOnChar sep rest with
    | [] => [[c]]
    | h :: t => if c = sep then [] :: h :: t else (c :: h) :: t

/-- Numeric value of an unsigned plain decimal literal `digits[.digits]`.
This models the string conversion of `decimal.Decimal` as the source uses
it on position literals: a nonempty digit run, optionally with a fractional
part; anything else raises `decimal.InvalidOperation` in the source and is
`none` here. -/
def parseUnsignedDec (cs : List Char) : Option ℚ :=
  match splitOnChar '.' cs with
  | [whole] =>
    if whole ≠ [] ∧ allDigits whole then some (digitsVal whole : ℚ) else none
  | [whole, fr] =>
    if (whole ≠ [] ∨ fr ≠ []) ∧ allDigits whole ∧ allDigits fr then
      some ((digitsVal whole : ℚ) + (digitsVal fr : ℚ) / (10 : ℚ) ^ fr.length)
    else none
  | _ => none

/-- Model of `decimal.Decimal(s)` for the literal forms relevant to the
routing engine: optional sign, digits, optional fractional digits. -/
def parseDecimal (s : String) : Option ℚ :=
  match s.data with
  | '-' :: rest => (parseUnsignedDec rest).map (fun q => -q)
  | '+' :: rest => parseUnsignedDec rest
  | cs => parseUnsignedDec cs

/-- Floor of the base-2 logarithm of a rational `q ≥ 1`, by repeated
halving; `fuel` bounds the recursion and is chosen large enough by the
caller. -/
def flogAux : ℕ → ℚ → ℕ
  | 0, _ => 0
  | fuel + 1, q => if q < 2 then 0 else flogAux fuel (q / 2) + 1

/-- Least `k` with `1 ≤ q * 2 ^ k`, for `0 < q`, by repeated doubling;
`fuel` bounds the recursion and is chosen large enough by the caller. -/
def clogAux : ℕ → ℚ → ℕ
  | 0, _ => 0
  | fuel + 1, q => if 1 ≤ q then 0 else clogAux fuel (2 * q) + 1

/-- Integer base-2 logarithm of a positive rational: the unique `e` with
`2 ^ e ≤ q < 2 ^ (e + 1)`. -/
def ratLog2 (q : ℚ) : ℤ :=
  if 1 ≤ q then (flogAux q.num.toNat q : ℤ) else -(clogAux q.den q : ℤ)

/-- Round a rational to the nearest integer, ties to the even integer
(IEEE-754 and Python rounding of exact values). -/
def roundHalfEven (s : ℚ) : ℤ :=
  let n := ⌊s⌋
  let fr := s - (n : ℚ)
  if fr < 1 / 2 then n
  else if 1 / 2 < fr then n + 1
  else if n % 2 = 0 then n else n + 1

/-- Binary64 round-to-nearest-even of a positive rational (normal range):
scale into the significand range `[2 ^ 52, 2 ^ 53)`, round half-to-even,
and scale back. -/
def floatRoundPos (q : ℚ) : ℚ :=
  let e := ratLog2 q
  let s : ℚ := if 0 ≤ 52 - e then q * (2 : ℚ) ^ (52 - e).toNat
               else q / (2 : ℚ) ^ (e - 52).toNat
  let m := roundHalfEven s
  if 0 ≤ e - 52 then (m : ℚ) * (2 : ℚ) ^ (e - 52).toNat
  else (m : ℚ) / (2 : ℚ) ^ (52 - e).toNat

/-- The IEEE-754 binary64 value nearest to a rational (ties to even),
modelling Python `float(...)` applied to an exact `Decimal` value. -/
def floatRound (q : ℚ) : ℚ :=
  if q = 0 then 0
  else if q < 0 then -floatRoundPos (-q)
  else floatRoundPos q

/-- Model of Python `round(x, 2)` on a float: round the exact value to two
decimal places with ties to even, then to the nearest binary64 value. -/
def pyRound2 (q : ℚ) : ℚ :=
  floatRound ((roundHalfEven (q * 100) : ℚ) / 100)

/-- The sublight distance of the source:
`float(abs(current_position - neighbor_position))`, the binary64 value of
the exact decimal position difference. -/
def sublightDist (pc pn : ℚ) : ℚ :=
  floatRound |pc - pn|

/-- Strict lexicographic comparison of character lists by Unicode code
point, as Python compares strings. -/
def strLtb : List Char → List Char → Bool
  | [], [] => false
  | [], _ :: _ => true
  | _ :: _, [] => false
  | a :: as, b :: bs =>
    if a.toNat < b.toNat then true
    else if b.toNat < a.toNat then false
    else strLtb as bs

/-- Python string `<`. -/
def strLt (a b : String) : Bool := strLtb a.data b.data

/-- Python string `≤` (total order: `a ≤ b ↔ ¬ b < a`). -/
def strLe (a b : String) : Bool := ! strLt b a

/-- `tuple(sorted((a, b)))` on two strings: the canonical (min, max)
wormhole pair of the source. -/
def sortPair (a b : String) : String × String :=
  if strLe a b then (a, b) else (b, a)

/-- A system row as fetched from the store. `position` is the raw column
value: `none` models SQL NULL, `some s` a textual value that still has to
pass `decimal.Decimal`. -/
structure RawSystem where
  id : String
  name : String
  x : ℚ
  y : ℚ
  position : Option String
  radius : ℚ
  owner : Option String
  region : Option String
deriving Repr, DecidableEq

/-- An entry of `systems_map`: the per-request node record, with the
position already converted to an exact decimal. -/
structure SysRec where
  name : String
  x : ℚ
  y : ℚ
  position : Option ℚ
  radius : ℚ
  owner : Option String
  region : Option String
deriving Repr, DecidableEq

instance : Inhabited SysRec := ⟨⟨"", 0, 0, none, 0, none, none⟩⟩

/-- A `faction_relationships` row. -/
structure RelRow where
  a : String
  b : String
  status : String
deriving Repr, DecidableEq

/-- The read-only snapshot the engine consumes: `systems` and `wormholes`
are the rows the two queries return (in order), `relRows` the
`faction_relationships` table and `regionRows` the `region_effects` table
as (region_name, effect_name) pairs. -/
structure Snapshot where
  systems : List RawSystem
  wormholes : List (String × String)
  relRows : List RelRow
  regionRows : List (String × String)
deriving Repr

/-- The request body of `/api/path`: `none` models an absent field. -/
structure PathRequest where
  startInput : Option String
  endInput : Option String
  avoidSlow : Bool
  avoidHostile : Bool
deriving Repr

/-- The two client-visible error classes of the route endpoint:
`validationError` is the HTTP 400 of a malformed request,
`notFoundError` the HTTP 404 of an endpoint missing from the map. -/
inductive ApiError
  | validationError
  | notFoundError
deriving Repr, DecidableEq

/-- One entry of the response `path` list. The source serialises the
position back to a string; the exact value is modelled directly. -/
structure PathNode where
  id : String
  name : String
  x : ℚ
  y : ℚ
  position : Option ℚ
deriving Repr, DecidableEq

/-- One entry of the response `detailed_path` list. -/
structure Leg where
  fromId : String
  toId : String
  method : String
deriving Repr, DecidableEq

/-- The success response. `legs` models the `detailed_path` key
(`none` when the source omits the key entirely, which happens only in the
empty-snapshot early return); `distance` is `none` for "no route". -/
structure RouteResponse where
  path : List PathNode
  legs : Option (List Leg)
  distance : Option ℚ
deriving Repr, DecidableEq

/-- First-match lookup in an association list kept in insertion order,
modelling Python dict access (keys are unique). -/
def alookup {α : Type} : List (String × α) → String → Option α
  | [], _ => none
  | e :: es, k => if e.1 = k then some e.2 else alookup es k

/-- Dict assignment: overwrite the entry of an existing key in place, or
append a new entry (Python dicts keep the original position of an updated
key). -/
def aset {α : Type} : List (String × α) → String → α → List (String × α)
  | [], k, v => [(k, v)]
  | e :: es, k, v => if e.1 = k then (k, v) :: es else e :: aset es k v

/-- The `relationships` dict: for every row with the traveler's faction on
either side, map the other faction to the row's status (later rows
overwrite). Without a traveler faction the query is skipped and the dict
stays empty. -/
def buildRelationships (ufid : Option String) (rows : List RelRow) :
    List (String × String) :=
  match ufid with
  | none => []
  | some u =>
    rows.foldl
      (fun m row =>
        if row.a = u ∨ row.b = u then
          aset m (if row.a = u then row.b else row.a) row.status
        else m)
      []

/-- The `slow_region_names` set: region names carrying the
"Null Space Decay" effect, fetched only when `avoid_slow_regions` is
set. -/
def buildSlowNames (avoidSlow : Bool) (rows : List (String × String)) :
    List String :=
  if avoidSlow then
    (rows.filter (fun r => r.2 = "Null Space Decay")).map (fun r => r.1)
  else []

/-- Build `systems_map`: convert each row's position with
`decimal.Decimal`; a NULL position is kept as `none`, an unparsable one
makes the whole row be skipped with a warning. -/
def buildSystemsMap (rows : List RawSystem) : List (String × SysRec) :=
  rows.foldl
    (fun m r =>
      match r.position with
      | none =>
        m ++ [(r.id, { name := r.name, x := r.x, y := r.y, position := none,
                       radius := r.radius, owner := r.owner, region := r.region })]
      | some s =>
        match parseDecimal s with
        | none => m
        | some q =>
          m ++ [(r.id, { name := r.name, x := r.x, y := r.y, position := some q,
                         radius := r.radius, owner := r.owner, region := r.region })])
    []

/-- The traveler context and graph snapshot the edge evaluator and the
search read from. -/
structure Graph where
  nodes : List (String × SysRec)
  wormPairs : List (String × String)
  relationships : List (String × String)
  slowNames : List String
  userFaction : Option String
  avoidSlow : Bool
  avoidHostile : Bool

/-- `region_name in slow_region_names` for one node. -/
def regionSlow (g : Graph) (s : SysRec) : Bool :=
  match s.region with
  | some r => g.slowNames.contains r
  | none => false

/-- `is_slow_travel`: either endpoint lies in a slow region. -/
def slowTravel (g : Graph) (cur nb : SysRec) : Bool :=
  regionSlow g cur || regionSlow g nb

/-- An owned endpoint whose owner holds `war` status with the traveler. -/
def ownerAtWar (g : Graph) (s : SysRec) : Bool :=
  match s.owner with
  | some o => alookup g.relationships o = some "war"
  | none => false

/-- `is_hostile`: either endpoint's owner is at war with the traveler. -/
def hostileEdge (g : Graph) (cur nb : SysRec) : Bool :=
  ownerAtWar g cur || ownerAtWar g nb

/-- `is_allowed` of the catapult step: the current system is unowned, or
owned by the traveler's faction, or owned by a faction in `allied`
status. -/
def catapultAllowed (g : Graph) (cur : SysRec) : Bool :=
  match cur.owner with
  | none => true
  | some o => (g.userFaction = some o) || (alookup g.relationships o = some "allied")

/-- `is_at_war` of the wormhole step: either endpoint has an owner holding
`war` status with the traveler (textually the same condition the hostile
penalty uses, re-derived at the wormhole site in the source). -/
def wormBlocked (g : Graph) (cur nb : SysRec) : Bool :=
  ownerAtWar g cur || ownerAtWar g nb

/-- Edge cost and method before the wormhole step, in source order:
sublight baseline, slow-region penalty, hostile penalty, catapult. -/
def preWormCost (g : Graph) (cur nb : SysRec) (pc pn : ℚ) : ℚ × String :=
  let sd := sublightDist pc pn
  let c1 : ℚ × String := (sd, "sublight")
  let c2 : ℚ × String :=
    if g.avoidSlow = true ∧ slowTravel g cur nb = true then (sd * 100, c1.2) else c1
  let c3 : ℚ × String :=
    if g.avoidHostile = true ∧ hostileEdge g cur nb = true then (c2.1 * 100, c2.2) else c2
  if 0 < cur.radius then
    if catapultAllowed g cur = true then
      if sd ≤ cur.radius then
        if 0 < c3.1 then ((0 : ℚ), "catapult") else c3
      else
        if sd - cur.radius < c3.1 then (sd - cur.radius, "catapult_sublight") else c3
    else c3
  else c3

/-- The full edge cost evaluator: the pre-wormhole cost, then the wormhole
step, which zeroes a still-nonzero cost when the canonical pair is a
registered wormhole and no endpoint owner is at war. -/
def edgeCost (g : Graph) (cid nid : String) (cur nb : SysRec) (pc pn : ℚ) :
    ℚ × String :=
  let c := preWormCost g cur nb pc pn
  if sortPair cid nid ∈ g.wormPairs then
    if wormBlocked g cur nb = false then
      if 0 < c.1 then ((0 : ℚ), "wormhole") else c
    else c
  else c

/-- Search state: tentative distances (`none` is the initial `+inf`),
predecessor and arrival-method per node (initially `(None, None)`), and
the frontier contents. -/
structure SearchState where
  dist : List (String × ℚ)
  pred : List (String × (String × String))
  pq : List (ℚ × String)

/-- Heap order of the source's frontier entries `(distance, node_id)`:
primarily by distance, ties by the id compared as a Python string. -/
def pqLt (x y : ℚ × String) : Prop :=
  x.1 < y.1 ∨ (x.1 = y.1 ∧ strLt x.2 y.2 = true)

instance (x y : ℚ × String) : Decidable (pqLt x y) := by
  unfold pqLt; infer_instance

/-- First minimal element of a nonempty frontier under `pqLt`. -/
def pqMinFold (x : ℚ × String) (xs : List (ℚ × String)) : ℚ × String :=
  xs.foldl (fun acc y => if pqLt y acc then y else acc) x

/-- Remove the first occurrence of an entry from the frontier. -/
def eraseFirst : List (ℚ × String) → (ℚ × String) → List (ℚ × String)
  | [], _ => []
  | y :: ys, m => if y = m then ys else y :: eraseFirst ys m

/-- Observable behaviour of `heapq.heappop`: remove and return the minimal
`(distance, id)` entry (lexicographic; equal-key entries are identical
pairs, so which copy is removed is immaterial). -/
def popMin : List (ℚ × String) → Option ((ℚ × String) × List (ℚ × String))
  | [] => none
  | x :: xs =>
    let m := pqMinFold x xs
    some (m, eraseFirst (x :: xs) m)

/-- The inner for-loop: relax every node of `systems_map` (in insertion
order) from current node `cid`, whose position is `pc` and whose settled
distance is `cd`. Nodes without a position are skipped; a strictly
improved neighbor gets its distance and predecessor updated and is pushed
onto the frontier. -/
def relaxAll (g : Graph) (cid : String) (cur : SysRec) (pc cd : ℚ)
    (st : SearchState) : SearchState :=
  g.nodes.foldl
    (fun st entry =>
      if entry.1 = cid then st
      else
        match entry.2.position with
        | none => st
        | some pn =>
          let ec := edgeCost g cid entry.1 cur entry.2 pc pn
          let nd := cd + ec.1
          let st1 : SearchState :=
            { dist := aset st.dist entry.1 nd,
              pred := aset st.pred entry.1 (cid, ec.2),
              pq := st.pq ++ [(nd, entry.1)] }
          match alookup st.dist entry.1 with
          | none => st1
          | some dn => if nd < dn then st1 else st)
    st

/-- The label-setting main loop. Each iteration pops the minimal frontier
entry; stale entries (extracted distance above the node's current best)
are discarded, popping the target terminates the walk, and otherwise every
node is relaxed from the popped one. A popped node whose position is
missing relaxes nothing. `fuel` bounds the iteration count (the source
loops until the frontier empties; every concrete run below completes
within its fuel). A node with an infinite recorded distance relaxes
nothing in the source (`inf + cost` improves no neighbor), modelled by the
corresponding skip. -/
inductive StepRes where
  | done (st : SearchState)
  | cont (st : SearchState)

/-- One iteration of the main loop: `done` means the source's loop
terminates there (frontier empty, or the target was popped), `cont` that
it goes round again with the given state. -/
def searchStep (g : Graph) (endId : String) (st : SearchState) : StepRes :=
  match popMin st.pq with
  | none => .done st
  | some (x, rest) =>
    let st1 : SearchState := { st with pq := rest }
    match alookup st1.dist x.2 with
    | some dc =>
      if dc < x.1 then .cont st1
      else if x.2 = endId then .done st1
      else
        match alookup g.nodes x.2 with
        | none => .cont st1
        | some cur =>
          match cur.position with
          | none => .cont st1
          | some pc => .cont (relaxAll g x.2 cur pc dc st1)
    | none =>
      if x.2 = endId then .done st1
      else .cont st1

def searchLoop (g : Graph) (endId : String) : ℕ → SearchState → SearchState
  | 0, st => st
  | fuel + 1, st =>
    match searchStep g endId st with
    | .done stF => stF
    | .cont stC => searchLoop g endId fuel stC

/-- Initial search state: source distance 0, everything else infinite,
frontier holding only the source. -/
def initState (startId : String) : SearchState :=
  { dist := [(startId, (0 : ℚ))]
  , pred := []
  , pq := [((0 : ℚ), startId)] }

/-- Walk predecessor links back from the target. The source walks until it
meets a node with no predecessor; the fuel (instantiated with one more
than the node count) only guards the recursion, and can be exhausted
solely on a predecessor cycle, where the source would not terminate at
all. -/
def walkPreds (pred : List (String × (String × String))) :
    ℕ → String → List String
  | 0, _ => []
  | fuel + 1, cur =>
    cur :: (match alookup pred cur with
            | some pr => walkPreds pred fuel pr.1
            | none => [])

/-- The `detailed_path` list: one record per consecutive pair of path
nodes, labelled with the method used to reach the second node. -/
def mkLegs (pred : List (String × (String × String)))
    (ids : List String) : List Leg :=
  (ids.zip ids.tail).map
    (fun p => { fromId := p.1, toId := p.2,
                method := ((alookup pred p.2).map (fun pr => pr.2)).getD "unknown" })

/-- The response `path` list: each id annotated with its record's name,
display coordinates and position (every walked id is a `systems_map` key;
the default is unreachable). -/
def mkPathNodes (m : List (String × SysRec)) (ids : List String) :
    List PathNode :=
  ids.map (fun i =>
    let nd := (alookup m i).getD default
    { id := i, name := nd.name, x := nd.x, y := nd.y, position := nd.position })

/-- Search plus path reconstruction, from the resolved endpoint ids to the
response: run the loop, report "no route" when the target distance stayed
infinite or the predecessor walk does not end at the source, and otherwise
assemble node list, legs and the 2-decimal rounded distance. -/
def routeStage (fuel : ℕ) (g : Graph) (startId endId : String) :
    RouteResponse :=
  let st := searchLoop g endId fuel (initState startId)
  match alookup st.dist endId with
  | none => { path := [], legs := some [], distance := none }
  | some td =>
    let ids := (walkPreds st.pred (g.nodes.length + 1) endId).reverse
    if ids.head? = some startId then
      if ids.length ≤ 1 then
        { path := mkPathNodes g.nodes ids, legs := some [],
          distance := some (pyRound2 td) }
      else
        { path := mkPathNodes g.nodes ids, legs := some (mkLegs st.pred ids),
          distance := some (pyRound2 td) }
    else { path := [], legs := some [], distance := none }

/-- Display-only spiral placement of a position. The source computes
`(r * cos(a), r * sin(a))` for `r = pos * 50 / 1000`, `a = pos * 0.1` in
floating point; the trigonometric pair is display data no routing claim
inspects, and is modelled by the scaling parameters `(r, a)` themselves. -/
def getSpiralCoords (q : ℚ) : ℚ × ℚ :=
  (q * 50 / 1000, q * (1 / 10))

/-- `input.startswith('pos:')` together with `input[4:]`. -/
def posArg (s : String) : Option String :=
  match s.data with
  | 'p' :: 'o' :: 's' :: ':' :: rest => some (String.mk rest)
  | _ => none

/-- `input.split(':')[1]`: `none` models the IndexError of a colon-free
input, which the source's handler turns into a validation error. -/
def splitColonSecond (s : String) : Option String :=
  match splitOnChar ':' s.data with
  | _ :: second :: _ => some (String.mk second)
  | _ => none

/-- Resolve one endpoint specifier: a `pos:` literal materialises a
virtual node (appended to `systems_map` under the fixed virtual id) after
an exact decimal parse whose failure is a validation error; otherwise the
id is the text after the first colon. The virtual display name
interpolates the position in the source; only its fixed prefix is
modelled, as no claim reads virtual names. -/
def resolveEndpoint (vid : String) (input : String)
    (m : List (String × SysRec)) :
    Except ApiError (String × List (String × SysRec)) :=
  match posArg input with
  | some lit =>
    match parseDecimal lit with
    | none => .error .validationError
    | some q =>
      let c := getSpiralCoords q
      .ok (vid, m ++ [(vid, { name := "Coordinate #", x := c.1, y := c.2,
                              position := some q, radius := 0, owner := none,
                              region := none })])
  | none =>
    match splitColonSecond input with
    | none => .error .validationError
    | some sid => .ok (sid, m)

/-- The route endpoint `calculate_path`, after authentication: request
validation, snapshot assembly, endpoint resolution, presence check,
search and reconstruction, in source order. `ufid` is the session's
faction id, `fuel` the loop bound passed through to the search. -/
def calculatePath (fuel : ℕ) (snap : Snapshot) (ufid : Option String)
    (req : PathRequest) : Except ApiError RouteResponse :=
  match req.startInput, req.endInput with
  | some si, some ei =>
    if si = "" ∨ ei = "" then .error .validationError
    else
      let rel := buildRelationships ufid snap.relRows
      let slow := buildSlowNames req.avoidSlow snap.regionRows
      if snap.systems.isEmpty then
        .ok { path := [], legs := none, distance := none }
      else
        let m0 := buildSystemsMap snap.systems
        match resolveEndpoint "virtual_start" si m0 with
        | .error e => .error e
        | .ok se =>
          match resolveEndpoint "virtual_end" ei se.2 with
          | .error e => .error e
          | .ok ee =>
            if (alookup ee.2 se.1).isSome ∧ (alookup ee.2 ee.1).isSome then
              let g : Graph :=
                { nodes := ee.2,
                  wormPairs := snap.wormholes.map (fun w => sortPair w.1 w.2),
                  relationships := rel, slowNames := slow, userFaction := ufid,
                  avoidSlow := req.avoidSlow, avoidHostile := req.avoidHostile }
              .ok (routeStage fuel g se.1 ee.1)
            else .error .notFoundError
  | _, _ => .error .validationError

/-! Concrete snapshots and requests used to settle individual claims. -/

/-- Scenario A of the specification: S1 at position 0, S2 at position 5
with catapult radius 5 and no owner, S3 at position 12, one wormhole
between S2 and S3. -/
def snapScenarioA : Snapshot :=
  { systems :=
      [ { id := "1", name := "S1", x := 0, y := 0, position := some "0",
          radius := 0, owner := none, region := none },
        { id := "2", name := "S2", x := 0, y := 0, position := some "5",
          radius := 5, owner := none, region := none },
        { id := "3", name := "S3", x := 0, y := 0, position := some "12",
          radius := 0, owner := none, region := none } ],
    wormholes := [("2", "3")], relRows := [], regionRows := [] }

/-- Route request S1 to S3 with both avoidance flags off. -/
def reqScenarioA : PathRequest :=
  { startInput := some "id:1", endInput := some "id:3",
    avoidSlow := false, avoidHostile := false }

/-- Three systems at positions 0, 1 and 100; the first lies in region "R",
which carries the decay effect. -/
def snapSlowChain : Snapshot :=
  { systems :=
      [ { id := "1", name := "A", x := 0, y := 0, position := some "0",
          radius := 0, owner := none, region := some "R" },
        { id := "2", name := "B", x := 0, y := 0, position := some "1",
          radius := 0, owner := none, region := none },
        { id := "3", name := "C", x := 0, y := 0, position := some "100",
          radius := 0, owner := none, region := none } ],
    wormholes := [], relRows := [],
    regionRows := [("R", "Null Space Decay")] }

/-- Route request A to C with slow-region avoidance on. -/
def reqSlowChain : PathRequest :=
  { startInput := some "id:1", endInput := some "id:3",
    avoidSlow := true, avoidHostile := false }

/-- Two systems, the second with a NULL position (kept in the node table
but excluded from travel). -/
def snapNullPos : Snapshot :=
  { systems :=
      [ { id := "1", name := "S1", x := 0, y := 0, position := some "0",
          radius := 0, owner := none, region := none },
        { id := "2", name := "S2", x := 0, y := 0, position := none,
          radius := 0, owner := none, region := none } ],
    wormholes := [], relRows := [], regionRows := [] }

/-- A request between the two systems of `snapNullPos`. -/
def reqNullPos : PathRequest :=
  { startInput := some "id:1", endInput := some "id:2",
    avoidSlow := false, avoidHostile := false }

/-- The empty snapshot: no system records at all. -/
def snapEmpty : Snapshot :=
  { systems := [], wormholes := [], relRows := [], regionRows := [] }

/-- A request whose start is a bare position with an unparsable literal. -/
def reqBadStart : PathRequest :=
  { startInput := some "pos:abc", endInput := some "id:2",
    avoidSlow := false, avoidHostile := false }

/-- A request whose two endpoints are both unparsable bare positions. -/
def reqBadBoth : PathRequest :=
  { startInput := some "pos:abc", endInput := some "pos:xyz",
    avoidSlow := false, avoidHostile := false }

/-- Edge-evaluator context with slow-region avoidance on, region "R"
marked slow, no wormholes and no relationships. -/
def gSlowCat : Graph :=
  { nodes := [], wormPairs := [], relationships := [],
    slowNames := ["R"], userFaction := none,
    avoidSlow := true, avoidHostile := false }

/-- Current node for the partial-catapult counterexample: position 0,
catapult radius 4, unowned, in slow region "R". -/
def recSlowCat : SysRec :=
  { name := "C", x := 0, y := 0, position := some 0, radius := 4,
    owner := none, region := some "R" }

/-- Neighbor node at position 10 with no catapult and no region. -/
def recFarPlain : SysRec :=
  { name := "N", x := 0, y := 0, position := some 10, radius := 0,
    owner := none, region := none }

/-- Edge-evaluator context with every feature off: no flags, no
wormholes, no relationships. -/
def gPlain : Graph :=
  { nodes := [], wormPairs := [], relationships := [],
    slowNames := [], userFaction := none,
    avoidSlow := false, avoidHostile := false }

/-- A node at position 0 with no catapult, owner or region. -/
def recOrigin : SysRec :=
  { name := "a", x := 0, y := 0, position := some 0, radius := 0,
    owner := none, region := none }

/-- A node at decimal position 0.1. -/
def recTenth : SysRec :=
  { name := "b", x := 0, y := 0, position := some (1 / 10), radius := 0,
    owner := none, region := none }

/-- Context for the catapult-gating witness: one faction "9" owns the
current node; the traveler belongs to faction "7" and has no relationship
record with "9". -/
def gNeutralOwner : Graph :=
  { nodes := [], wormPairs := [], relationships := [],
    slowNames := [], userFaction := some "7",
    avoidSlow := false, avoidHostile := false }

/-- Current node owned by the strictly neutral faction "9", catapult
radius 3. -/
def recNeutralOwned : SysRec :=
  { name := "C", x := 0, y := 0, position := some 0, radius := 3,
    owner := some "9", region := none }

/-- Context for the wormhole witness: the pair ("1", "2") is a wormhole;
the traveler has no relationships. -/
def gWorm : Graph :=
  { nodes := [], wormPairs := [("1", "2")], relationships := [],
    slowNames := [], userFaction := none,
    avoidSlow := false, avoidHostile := false }

/-- Parsed node records of Scenario A. -/
def recA1 : SysRec := ⟨"S1", 0, 0, some 0, 0, none, none⟩
def recA2 : SysRec := ⟨"S2", 0, 0, some 5, 5, none, none⟩
def recA3 : SysRec := ⟨"S3", 0, 0, some 12, 0, none, none⟩

def gA : Graph :=
  { nodes := [("1", recA1), ("2", recA2), ("3", recA3)],
    wormPairs := [("2", "3")], relationships := [],
    slowNames := [], userFaction := none, avoidSlow := false, avoidHostile := false }

def respA : RouteResponse :=
  { path := [⟨"1","S1",0,0,some 0⟩, ⟨"2","S2",0,0,some 5⟩, ⟨"3","S3",0,0,some 12⟩],
    legs := some [⟨"1","2","sublight"⟩, ⟨"2","3","wormhole"⟩],
    distance := some 5 }


/-- Parsed node records of the slow-chain snapshot. -/
def recB1 : SysRec := ⟨"A", 0, 0, some 0, 0, none, some "R"⟩
def recB2 : SysRec := ⟨"B", 0, 0, some 1, 0, none, none⟩
def recB3 : SysRec := ⟨"C", 0, 0, some 100, 0, none, none⟩

def gB : Graph :=
  { nodes := [("1", recB1), ("2", recB2), ("3", recB3)],
    wormPairs := [], relationships := [],
    slowNames := ["R"], userFaction := none, avoidSlow := true, avoidHostile := false }

def respB : RouteResponse :=
  { path := [⟨"1","A",0,0,some 0⟩, ⟨"2","B",0,0,some 1⟩, ⟨"3","C",0,0,some 100⟩],
    legs := some [⟨"1","2","sublight"⟩, ⟨"2","3","sublight"⟩],
    distance := some 199 }


/-- Parsed node records of the NULL-position snapshot. -/
def recN1 : SysRec := ⟨"S1", 0, 0, some 0, 0, none, none⟩
def recN2 : SysRec := ⟨"S2", 0, 0, none, 0, none, none⟩


/-! Helper lemmas about the binary64 rounding model. -/

/-- `flogAux` computes a base-2 logarithm floor: with enough fuel the
result `k` of a rational `q ≥ 1` satisfies `2 ^ k ≤ q < 2 ^ (k + 1)`. -/
theorem flogAux_spec : ∀ (fuel : ℕ) (q : ℚ), 1 ≤ q → q < 2 ^ fuel →
    (2 : ℚ) ^ flogAux fuel q ≤ q ∧ q < 2 ^ (flogAux fuel q + 1) := by
  intro fuel
  induction fuel with
  | zero =>
    intro q h1 h2
    norm_num at h2
    linarith
  | succ n ih =>
    intro q h1 h2
    rw [flogAux]
    split
    · constructor
      · simpa using h1
      · simpa
    · rename_i hq
      push_neg at hq
      have h1' : 1 ≤ q / 2 := by linarith
      have h2' : q / 2 < 2 ^ n := by
        rw [div_lt_iff₀ (by norm_num : (0:ℚ) < 2)]
        calc q < 2 ^ (n + 1) := h2
        _ = 2 ^ n * 2 := by ring
      obtain ⟨ha, hb⟩ := ih (q / 2) h1' h2'
      constructor
      · have he : (2:ℚ) ^ (flogAux n (q / 2) + 1) = 2 ^ flogAux n (q / 2) * 2 := by ring
        rw [he]
        rw [le_div_iff₀ (by norm_num : (0:ℚ) < 2)] at ha
        exact ha
      · have he : (2:ℚ) ^ (flogAux n (q / 2) + 1 + 1) = 2 ^ (flogAux n (q / 2) + 1) * 2 := by ring
        rw [he]
        rw [div_lt_iff₀ (by norm_num : (0:ℚ) < 2)] at hb
        exact hb

/-- Binary64 rounding is the identity on natural numbers up to `2 ^ 52`:
such values are exactly representable. -/
theorem floatRound_natCast (n : ℕ) (h : n ≤ 2 ^ 52) : floatRound (n : ℚ) = n := by
  rcases Nat.eq_zero_or_pos n with h0 | h0
  · subst h0; simp [floatRound]
  · have h1 : (1 : ℚ) ≤ (n : ℚ) := by exact_mod_cast h0
    have hne : (n : ℚ) ≠ 0 := by
      have hpos : (0 : ℚ) < (n : ℚ) := by exact_mod_cast h0
      exact ne_of_gt hpos
    have hnlt : ¬ (n : ℚ) < 0 := not_lt.mpr (by positivity)
    rw [floatRound, if_neg hne, if_neg hnlt, floatRoundPos]
    have hnum : ((n : ℚ)).num.toNat = n := by
      rw [Rat.num_natCast]; exact Int.toNat_natCast n
    rw [ratLog2, if_pos h1, hnum]
    set E := flogAux n (n : ℚ) with hE
    have hfuel : (n : ℚ) < 2 ^ n := by exact_mod_cast Nat.lt_two_pow n
    obtain ⟨ha, hb⟩ := flogAux_spec n (n : ℚ) h1 hfuel
    have hE52 : E ≤ 52 := by
      by_contra hcon
      push_neg at hcon
      have h53 : (2 : ℚ) ^ 53 ≤ 2 ^ E := by
        apply pow_le_pow_right₀ (by norm_num : (1:ℚ) ≤ 2)
        omega
      have hn52 : (n : ℚ) ≤ 2 ^ 52 := by exact_mod_cast h
      have hcontra : (2:ℚ) ^ 53 ≤ 2 ^ 52 := by
        calc (2:ℚ) ^ 53 ≤ 2 ^ E := h53
        _ ≤ (n : ℚ) := ha
        _ ≤ 2 ^ 52 := hn52
      norm_num at hcontra
    have hnn : (0 : ℤ) ≤ 52 - (E : ℤ) := by omega
    rw [if_pos hnn]
    have htn : ((52 : ℤ) - (E : ℤ)).toNat = 52 - E := by omega
    rw [htn]
    have hs : (n : ℚ) * 2 ^ (52 - E) = ((n * 2 ^ (52 - E) : ℕ) : ℚ) := by push_cast; ring
    rw [hs, roundHalfEven]
    simp only [Int.floor_natCast]
    have hfr : ((n * 2 ^ (52 - E) : ℕ) : ℚ) - ((n * 2 ^ (52 - E) : ℕ) : ℤ) = 0 := by push_cast; ring
    rw [hfr]
    rw [if_pos (by norm_num : (0:ℚ) < 1/2)]
    rcases Nat.lt_or_ge E 52 with hlt | hge
    · rw [if_neg (by omega : ¬ (0 : ℤ) ≤ (E : ℤ) - 52)]
      push_cast
      rw [mul_div_assoc, div_self (by positivity : (2:ℚ) ^ (52 - E) ≠ 0), mul_one]
    · have hEeq : E = 52 := le_antisymm hE52 hge
      rw [if_pos (by omega : (0 : ℤ) ≤ (E : ℤ) - 52)]
      have hz1 : ((E : ℤ) - 52).toNat = 0 := by omega
      have hz2 : 52 - E = 0 := by omega
      rw [hz1, hz2]
      push_cast
      ring

/-- Evaluation of the engine on Scenario A: the cheapest route S1 to S3
goes through S2 (cost 5 by sublight, then 0 by wormhole), so the response
carries a sublight first leg and total distance 5. Fuel 10 exceeds the
three iterations the run needs. -/
theorem scenarioA_run :
    calculatePath 10 snapScenarioA none reqScenarioA = Except.ok respA := by
  have f5 : floatRound (5:ℚ) = 5 := by exact_mod_cast floatRound_natCast 5 (by norm_num)
  have f7 : floatRound (7:ℚ) = 7 := by exact_mod_cast floatRound_natCast 7 (by norm_num)
  have f12 : floatRound (12:ℚ) = 12 := by exact_mod_cast floatRound_natCast 12 (by norm_num)
  have hn : gA.nodes = [("1", recA1), ("2", recA2), ("3", recA3)] := rfl
  have hp1 : recA1.position = some 0 := rfl
  have hp2 : recA2.position = some 5 := rfl
  have hp3 : recA3.position = some 12 := rfl
  -- edge costs used by the run
  have he12 : edgeCost gA "1" "2" recA1 recA2 0 5 = (5, "sublight") := by
    norm_num [edgeCost, preWormCost, sublightDist, wormBlocked, ownerAtWar, hostileEdge,
      slowTravel, regionSlow, catapultAllowed, gA, recA1, recA2,
      (show sortPair "1" "2" = ("1","2") from rfl), f5]
    decide
  have he13 : edgeCost gA "1" "3" recA1 recA3 0 12 = (12, "sublight") := by
    norm_num [edgeCost, preWormCost, sublightDist, wormBlocked, ownerAtWar, hostileEdge,
      slowTravel, regionSlow, catapultAllowed, gA, recA1, recA3,
      (show sortPair "1" "3" = ("1","3") from rfl), f12]
    decide
  have he21 : edgeCost gA "2" "1" recA2 recA1 5 0 = (0, "catapult") := by
    norm_num [edgeCost, preWormCost, sublightDist, wormBlocked, ownerAtWar, hostileEdge,
      slowTravel, regionSlow, catapultAllowed, gA, recA1, recA2,
      (show sortPair "2" "1" = ("1","2") from rfl), f5]
  have he23 : edgeCost gA "2" "3" recA2 recA3 5 12 = (0, "wormhole") := by
    norm_num [edgeCost, preWormCost, sublightDist, wormBlocked, ownerAtWar, hostileEdge,
      slowTravel, regionSlow, catapultAllowed, gA, recA2, recA3,
      (show sortPair "2" "3" = ("2","3") from rfl), f7]
  -- search iterations
  have h1 : searchStep gA "3" (initState "1") =
      .cont { dist := [("1", 0), ("2", 5), ("3", 12)],
              pred := [("2", ("1", "sublight")), ("3", ("1", "sublight"))],
              pq := [(5, "2"), (12, "3")] } := by
    have a1 : alookup [(("1":String), (0:ℚ))] "1" = some 0 := rfl
    have a2 : alookup [(("1":String), recA1), ("2", recA2), ("3", recA3)] "1" = some recA1 := rfl
    have a3 : alookup [(("1":String), (0:ℚ))] "2" = none := rfl
    have a4 : alookup [(("1":String), (0:ℚ)), ("2", 5)] "3" = none := rfl
    have b1 : aset [(("1":String), (0:ℚ))] "2" 5 = [("1", 0), ("2", 5)] := rfl
    have b2 : aset ([] : List (String × (String × String))) "2" ("1", "sublight") =
        [("2", ("1", "sublight"))] := rfl
    have b3 : aset [(("1":String), (0:ℚ)), ("2", 5)] "3" 12 =
        [("1", 0), ("2", 5), ("3", 12)] := rfl
    have b4 : aset [(("2":String), (("1":String), "sublight"))] "3" ("1", "sublight") =
        [("2", ("1", "sublight")), ("3", ("1", "sublight"))] := rfl
    have q1 : ¬ ((0:ℚ) < 0) := by norm_num
    simp [searchStep, initState, popMin, pqMinFold, eraseFirst, relaxAll, pqLt,
      he12, he13, hn, hp1, hp2, hp3, a1, a2, a3, a4, b1, b2, b3, b4, q1]
  have h2 : searchStep gA "3"
      { dist := [("1", 0), ("2", 5), ("3", 12)],
        pred := [("2", ("1", "sublight")), ("3", ("1", "sublight"))],
        pq := [(5, "2"), (12, "3")] } =
      .cont { dist := [("1", 0), ("2", 5), ("3", 5)],
              pred := [("2", ("1", "sublight")), ("3", ("2", "wormhole"))],
              pq := [(12, "3"), (5, "3")] } := by
    have a1 : alookup [(("1":String), (0:ℚ)), ("2", 5), ("3", 12)] "2" = some 5 := rfl
    have a2 : alookup [(("1":String), recA1), ("2", recA2), ("3", recA3)] "2" = some recA2 := rfl
    have a3 : alookup [(("1":String), (0:ℚ)), ("2", 5), ("3", 12)] "1" = some 0 := rfl
    have a4 : alookup [(("1":String), (0:ℚ)), ("2", 5), ("3", 12)] "3" = some 12 := rfl
    have b1 : aset [(("1":String), (0:ℚ)), ("2", 5), ("3", 12)] "3" 5 =
        [("1", 0), ("2", 5), ("3", 5)] := rfl
    have b2 : aset [(("2":String), (("1":String), "sublight")), ("3", ("1", "sublight"))]
        "3" ("2", "wormhole") =
        [("2", ("1", "sublight")), ("3", ("2", "wormhole"))] := rfl
    have q1 : ¬ ((12:ℚ) < 5) := by norm_num
    have q2 : ¬ ((12:ℚ) = 5) := by norm_num
    have q3 : ¬ ((5:ℚ) < 5) := by norm_num
    have q4 : ¬ ((5:ℚ) < 0) := by norm_num
    have q5 : ((5:ℚ) < 12) := by norm_num
    simp [searchStep, popMin, pqMinFold, eraseFirst, relaxAll, pqLt,
      he21, he23, hn, hp1, hp2, hp3, a1, a2, a3, a4, b1, b2, q1, q2, q3, q4, q5]
  have h3 : searchStep gA "3"
      { dist := [("1", 0), ("2", 5), ("3", 5)],
        pred := [("2", ("1", "sublight")), ("3", ("2", "wormhole"))],
        pq := [(12, "3"), (5, "3")] } =
      .done { dist := [("1", 0), ("2", 5), ("3", 5)],
              pred := [("2", ("1", "sublight")), ("3", ("2", "wormhole"))],
              pq := [(12, "3")] } := by
    have a1 : alookup [(("1":String), (0:ℚ)), ("2", 5), ("3", 5)] "3" = some 5 := rfl
    have q1 : ¬ ((12:ℚ) < 5) := by norm_num
    have q2 : ¬ ((12:ℚ) = 5) := by norm_num
    have q3 : ¬ ((5:ℚ) < 5) := by norm_num
    have s1 : strLt "3" "3" = false := rfl
    have q5 : ((5:ℚ) < 12) := by norm_num
    simp [searchStep, popMin, pqMinFold, eraseFirst, pqLt, a1, q1, q2, q3, q5, s1]
  have hloop : searchLoop gA "3" 10 (initState "1") =
      { dist := [("1", 0), ("2", 5), ("3", 5)],
        pred := [("2", ("1", "sublight")), ("3", ("2", "wormhole"))],
        pq := [(12, "3")] } := by
    simp only [searchLoop, h1, h2, h3]
  have hpr : pyRound2 5 = 5 := by norm_num [pyRound2, roundHalfEven, f5]
  have hroute : routeStage 10 gA "1" "3" = respA := by
    have a1 : alookup [(("1":String), (0:ℚ)), ("2", 5), ("3", 5)] "3" = some 5 := rfl
    have w3 : alookup [(("2":String), (("1":String), "sublight")), ("3", ("2", "wormhole"))]
        "3" = some ("2", "wormhole") := rfl
    have w2 : alookup [(("2":String), (("1":String), "sublight")), ("3", ("2", "wormhole"))]
        "2" = some ("1", "sublight") := rfl
    have w1 : alookup [(("2":String), (("1":String), "sublight")), ("3", ("2", "wormhole"))]
        "1" = none := rfl
    have n1 : alookup [(("1":String), recA1), ("2", recA2), ("3", recA3)] "1" = some recA1 := rfl
    have n2 : alookup [(("1":String), recA1), ("2", recA2), ("3", recA3)] "2" = some recA2 := rfl
    have n3 : alookup [(("1":String), recA1), ("2", recA2), ("3", recA3)] "3" = some recA3 := rfl
    simp [routeStage, hloop, hn, walkPreds, mkPathNodes, mkLegs, respA,
      a1, w1, w2, w3, n1, n2, n3, hpr, hp1, hp2, hp3,
      (show recA1.name = "S1" from rfl), (show recA2.name = "S2" from rfl),
      (show recA3.name = "S3" from rfl),
      (show recA1.x = 0 from rfl), (show recA2.x = 0 from rfl),
      (show recA3.x = 0 from rfl),
      (show recA1.y = 0 from rfl), (show recA2.y = 0 from rfl),
      (show recA3.y = 0 from rfl)]
  have hmap : buildSystemsMap
      [⟨"1", "S1", 0, 0, some "0", 0, none, none⟩,
       ⟨"2", "S2", 0, 0, some "5", 5, none, none⟩,
       ⟨"3", "S3", 0, 0, some "12", 0, none, none⟩] =
      [("1", recA1), ("2", recA2), ("3", recA3)] := by
    simp [buildSystemsMap, recA1, recA2, recA3,
      (show parseDecimal "0" = some 0 from rfl),
      (show parseDecimal "5" = some 5 from rfl),
      (show parseDecimal "12" = some 12 from rfl)]
  have hg : ({ nodes := [("1", recA1), ("2", recA2), ("3", recA3)],
               wormPairs := [("2", "3")], relationships := [], slowNames := [],
               userFaction := none, avoidSlow := false, avoidHostile := false } : Graph) = gA := rfl
  have n1 : alookup [(("1":String), recA1), ("2", recA2), ("3", recA3)] "1" = some recA1 := rfl
  have n3 : alookup [(("1":String), recA1), ("2", recA2), ("3", recA3)] "3" = some recA3 := rfl
  simp [calculatePath, snapScenarioA, reqScenarioA, buildRelationships, buildSlowNames,
    hmap, resolveEndpoint, n1, n3,
    (show posArg "id:1" = none from rfl), (show posArg "id:3" = none from rfl),
    (show splitColonSecond "id:1" = some "1" from rfl),
    (show splitColonSecond "id:3" = some "3" from rfl),
    (show sortPair "2" "3" = ("2","3") from rfl), hg, hroute]

/-- Evaluation of the engine on the slow-chain snapshot: with slow-region
avoidance on, the cheapest route A to C is A-B-C (cost 100 for the
penalized first hop, 99 for the second), and both hops travel by
sublight, so the response carries two consecutive legs with the same
method. -/
theorem slowChain_run :
    calculatePath 10 snapSlowChain none reqSlowChain = Except.ok respB := by
  have f1 : floatRound (1:ℚ) = 1 := by exact_mod_cast floatRound_natCast 1 (by norm_num)
  have f99 : floatRound (99:ℚ) = 99 := by exact_mod_cast floatRound_natCast 99 (by norm_num)
  have f100 : floatRound (100:ℚ) = 100 := by exact_mod_cast floatRound_natCast 100 (by norm_num)
  have f199 : floatRound (199:ℚ) = 199 := by exact_mod_cast floatRound_natCast 199 (by norm_num)
  have hn : gB.nodes = [("1", recB1), ("2", recB2), ("3", recB3)] := rfl
  have hp1 : recB1.position = some 0 := rfl
  have hp2 : recB2.position = some 1 := rfl
  have hp3 : recB3.position = some 100 := rfl
  have he12 : edgeCost gB "1" "2" recB1 recB2 0 1 = (100, "sublight") := by
    norm_num [edgeCost, preWormCost, sublightDist, wormBlocked, ownerAtWar, hostileEdge,
      slowTravel, regionSlow, catapultAllowed, gB, recB1, recB2, f1]
  have he13 : edgeCost gB "1" "3" recB1 recB3 0 100 = (10000, "sublight") := by
    norm_num [edgeCost, preWormCost, sublightDist, wormBlocked, ownerAtWar, hostileEdge,
      slowTravel, regionSlow, catapultAllowed, gB, recB1, recB3, f100]
  have he21 : edgeCost gB "2" "1" recB2 recB1 1 0 = (100, "sublight") := by
    norm_num [edgeCost, preWormCost, sublightDist, wormBlocked, ownerAtWar, hostileEdge,
      slowTravel, regionSlow, catapultAllowed, gB, recB1, recB2, f1]
  have he23 : edgeCost gB "2" "3" recB2 recB3 1 100 = (99, "sublight") := by
    norm_num [edgeCost, preWormCost, sublightDist, wormBlocked, ownerAtWar, hostileEdge,
      slowTravel, regionSlow, catapultAllowed, gB, recB2, recB3, f99]
  have h1 : searchStep gB "3" (initState "1") =
      .cont { dist := [("1", 0), ("2", 100), ("3", 10000)],
              pred := [("2", ("1", "sublight")), ("3", ("1", "sublight"))],
              pq := [(100, "2"), (10000, "3")] } := by
    have a1 : alookup [(("1":String), (0:ℚ))] "1" = some 0 := rfl
    have a2 : alookup [(("1":String), recB1), ("2", recB2), ("3", recB3)] "1" = some recB1 := rfl
    have a3 : alookup [(("1":String), (0:ℚ))] "2" = none := rfl
    have a4 : alookup [(("1":String), (0:ℚ)), ("2", 100)] "3" = none := rfl
    have b1 : aset [(("1":String), (0:ℚ))] "2" 100 = [("1", 0), ("2", 100)] := rfl
    have b2 : aset ([] : List (String × (String × String))) "2" ("1", "sublight") =
        [("2", ("1", "sublight"))] := rfl
    have b3 : aset [(("1":String), (0:ℚ)), ("2", 100)] "3" 10000 =
        [("1", 0), ("2", 100), ("3", 10000)] := rfl
    have b4 : aset [(("2":String), (("1":String), "sublight"))] "3" ("1", "sublight") =
        [("2", ("1", "sublight")), ("3", ("1", "sublight"))] := rfl
    have q1 : ¬ ((0:ℚ) < 0) := by norm_num
    simp [searchStep, initState, popMin, pqMinFold, eraseFirst, relaxAll, pqLt,
      he12, he13, hn, hp1, hp2, hp3, a1, a2, a3, a4, b1, b2, b3, b4, q1]
  have h2 : searchStep gB "3"
      { dist := [("1", 0), ("2", 100), ("3", 10000)],
        pred := [("2", ("1", "sublight")), ("3", ("1", "sublight"))],
        pq := [(100, "2"), (10000, "3")] } =
      .cont { dist := [("1", 0), ("2", 100), ("3", 199)],
              pred := [("2", ("1", "sublight")), ("3", ("2", "sublight"))],
              pq := [(10000, "3"), (199, "3")] } := by
    have a1 : alookup [(("1":String), (0:ℚ)), ("2", 100), ("3", 10000)] "2" = some 100 := rfl
    have a2 : alookup [(("1":String), recB1), ("2", recB2), ("3", recB3)] "2" = some recB2 := rfl
    have a3 : alookup [(("1":String), (0:ℚ)), ("2", 100), ("3", 10000)] "1" = some 0 := rfl
    have a4 : alookup [(("1":String), (0:ℚ)), ("2", 100), ("3", 10000)] "3" = some 10000 := rfl
    have b1 : aset [(("1":String), (0:ℚ)), ("2", 100), ("3", 10000)] "3" 199 =
        [("1", 0), ("2", 100), ("3", 199)] := rfl
    have b2 : aset [(("2":String), (("1":String), "sublight")), ("3", ("1", "sublight"))]
        "3" ("2", "sublight") =
        [("2", ("1", "sublight")), ("3", ("2", "sublight"))] := rfl
    have q1 : ¬ ((10000:ℚ) < 100) := by norm_num
    have q2 : ¬ ((10000:ℚ) = 100) := by norm_num
    have q3 : ¬ ((100:ℚ) < 100) := by norm_num
    have q4 : (100:ℚ) + 100 = 200 := by norm_num
    have q5 : ¬ ((200:ℚ) < 0) := by norm_num
    have q6 : (100:ℚ) + 99 = 199 := by norm_num
    have q7 : ((199:ℚ) < 10000) := by norm_num
    simp [searchStep, popMin, pqMinFold, eraseFirst, relaxAll, pqLt,
      he21, he23, hn, hp1, hp2, hp3, a1, a2, a3, a4, b1, b2, q1, q2, q3, q4, q5, q6, q7]
  have h3 : searchStep gB "3"
      { dist := [("1", 0), ("2", 100), ("3", 199)],
        pred := [("2", ("1", "sublight")), ("3", ("2", "sublight"))],
        pq := [(10000, "3"), (199, "3")] } =
      .done { dist := [("1", 0), ("2", 100), ("3", 199)],
              pred := [("2", ("1", "sublight")), ("3", ("2", "sublight"))],
              pq := [(10000, "3")] } := by
    have a1 : alookup [(("1":String), (0:ℚ)), ("2", 100), ("3", 199)] "3" = some 199 := rfl
    have q1 : ((199:ℚ) < 10000) := by norm_num
    have q2 : ¬ ((10000:ℚ) = 199) := by norm_num
    have q3 : ¬ ((199:ℚ) < 199) := by norm_num
    have s1 : strLt "3" "3" = false := rfl
    simp [searchStep, popMin, pqMinFold, eraseFirst, pqLt, a1, q1, q2, q3, s1]
  have hloop : searchLoop gB "3" 10 (initState "1") =
      { dist := [("1", 0), ("2", 100), ("3", 199)],
        pred := [("2", ("1", "sublight")), ("3", ("2", "sublight"))],
        pq := [(10000, "3")] } := by
    simp only [searchLoop, h1, h2, h3]
  have hpr : pyRound2 199 = 199 := by norm_num [pyRound2, roundHalfEven, f199]
  have hroute : routeStage 10 gB "1" "3" = respB := by
    have a1 : alookup [(("1":String), (0:ℚ)), ("2", 100), ("3", 199)] "3" = some 199 := rfl
    have w3 : alookup [(("2":String), (("1":String), "sublight")), ("3", ("2", "sublight"))]
        "3" = some ("2", "sublight") := rfl
    have w2 : alookup [(("2":String), (("1":String), "sublight")), ("3", ("2", "sublight"))]
        "2" = some ("1", "sublight") := rfl
    have w1 : alookup [(("2":String), (("1":String), "sublight")), ("3", ("2", "sublight"))]
        "1" = none := rfl
    have n1 : alookup [(("1":String), recB1), ("2", recB2), ("3", recB3)] "1" = some recB1 := rfl
    have n2 : alookup [(("1":String), recB1), ("2", recB2), ("3", recB3)] "2" = some recB2 := rfl
    have n3 : alookup [(("1":String), recB1), ("2", recB2), ("3", recB3)] "3" = some recB3 := rfl
    simp [routeStage, hloop, hn, walkPreds, mkPathNodes, mkLegs, respB,
      a1, w1, w2, w3, n1, n2, n3, hpr, hp1, hp2, hp3,
      (show recB1.name = "A" from rfl), (show recB2.name = "B" from rfl),
      (show recB3.name = "C" from rfl),
      (show recB1.x = 0 from rfl), (show recB2.x = 0 from rfl),
      (show recB3.x = 0 from rfl),
      (show recB1.y = 0 from rfl), (show recB2.y = 0 from rfl),
      (show recB3.y = 0 from rfl)]
  have hmap : buildSystemsMap
      [⟨"1", "A", 0, 0, some "0", 0, none, some "R"⟩,
       ⟨"2", "B", 0, 0, some "1", 0, none, none⟩,
       ⟨"3", "C", 0, 0, some "100", 0, none, none⟩] =
      [("1", recB1), ("2", recB2), ("3", recB3)] := by
    simp [buildSystemsMap, recB1, recB2, recB3,
      (show parseDecimal "0" = some 0 from rfl),
      (show parseDecimal "1" = some 1 from rfl),
      (show parseDecimal "100" = some 100 from rfl)]
  have hg : ({ nodes := [("1", recB1), ("2", recB2), ("3", recB3)],
               wormPairs := [], relationships := [], slowNames := ["R"],
               userFaction := none, avoidSlow := true, avoidHostile := false } : Graph) = gB := rfl
  have n1 : alookup [(("1":String), recB1), ("2", recB2), ("3", recB3)] "1" = some recB1 := rfl
  have n3 : alookup [(("1":String), recB1), ("2", recB2), ("3", recB3)] "3" = some recB3 := rfl
  simp [calculatePath, snapSlowChain, reqSlowChain, buildRelationships, buildSlowNames,
    hmap, resolveEndpoint, n1, n3,
    (show posArg "id:1" = none from rfl), (show posArg "id:3" = none from rfl),
    (show splitColonSecond "id:1" = some "1" from rfl),
    (show splitColonSecond "id:3" = some "3" from rfl), hg, hroute]

/-- Evaluation of the engine on the NULL-position snapshot: the target
system is in the node table but carries no position, so it is never
relaxed, its distance stays infinite and the engine answers with the
no-route response. -/
theorem nullPos_run :
    calculatePath 10 snapNullPos none reqNullPos =
      Except.ok { path := [], legs := some [], distance := none } := by
  have hmap : buildSystemsMap
      [⟨"1", "S1", 0, 0, some "0", 0, none, none⟩,
       ⟨"2", "S2", 0, 0, none, 0, none, none⟩] =
      [("1", recN1), ("2", recN2)] := by
    simp [buildSystemsMap, recN1, recN2, (show parseDecimal "0" = some 0 from rfl)]
  have h1 : searchStep
      ({ nodes := [("1", recN1), ("2", recN2)], wormPairs := [], relationships := [],
         slowNames := [], userFaction := none, avoidSlow := false,
         avoidHostile := false } : Graph) "2" (initState "1") =
      .cont { dist := [("1", 0)], pred := [], pq := [] } := by
    have a1 : alookup [(("1":String), (0:ℚ))] "1" = some 0 := rfl
    have a2 : alookup [(("1":String), recN1), ("2", recN2)] "1" = some recN1 := rfl
    have q1 : ¬ ((0:ℚ) < 0) := by norm_num
    simp [searchStep, initState, popMin, pqMinFold, eraseFirst, relaxAll, pqLt,
      a1, a2, q1,
      (show recN1.position = some 0 from rfl),
      (show recN2.position = (none : Option ℚ) from rfl)]
  have h2 : searchStep
      ({ nodes := [("1", recN1), ("2", recN2)], wormPairs := [], relationships := [],
         slowNames := [], userFaction := none, avoidSlow := false,
         avoidHostile := false } : Graph) "2"
      { dist := [("1", 0)], pred := [], pq := [] } =
      .done { dist := [("1", 0)], pred := [], pq := [] } := by
    simp [searchStep, popMin]
  have hloop : searchLoop
      ({ nodes := [("1", recN1), ("2", recN2)], wormPairs := [], relationships := [],
         slowNames := [], userFaction := none, avoidSlow := false,
         avoidHostile := false } : Graph) "2" 10 (initState "1") =
      { dist := [("1", 0)], pred := [], pq := [] } := by
    simp only [searchLoop, h1, h2]
  have hroute : routeStage 10
      ({ nodes := [("1", recN1), ("2", recN2)], wormPairs := [], relationships := [],
         slowNames := [], userFaction := none, avoidSlow := false,
         avoidHostile := false } : Graph) "1" "2" =
      { path := [], legs := some [], distance := none } := by
    have a1 : alookup [(("1":String), (0:ℚ))] "2" = none := rfl
    simp [routeStage, hloop, a1]
  have n1 : alookup [(("1":String), recN1), ("2", recN2)] "1" = some recN1 := rfl
  have n2 : alookup [(("1":String), recN1), ("2", recN2)] "2" = some recN2 := rfl
  simp [calculatePath, snapNullPos, reqNullPos, buildRelationships, buildSlowNames,
    hmap, resolveEndpoint, n1, n2,
    (show posArg "id:1" = none from rfl), (show posArg "id:2" = none from rfl),
    (show splitColonSecond "id:1" = some "1" from rfl),
    (show splitColonSecond "id:2" = some "2" from rfl), hroute]


/-! Order lemmas for the frontier comparison. -/

theorem strLtb_irrefl : ∀ l : List Char, strLtb l l = false := by
  intro l
  induction l with
  | nil => rfl
  | cons a as ih => simp [strLtb, ih]

theorem char_eq_of_toNat {a b : Char} (h : a.toNat = b.toNat) : a = b := by
  have h1 : Char.ofNat a.toNat = Char.ofNat b.toNat := by rw [h]
  rwa [Char.ofNat_toNat, Char.ofNat_toNat] at h1

theorem strLtb_trans : ∀ a b c : List Char,
    strLtb a b = true → strLtb b c = true → strLtb a c = true := by
  intro a
  induction a with
  | nil =>
    intro b c hab hbc
    cases b with
    | nil => exact absurd hab (by simp [strLtb])
    | cons y ys =>
      cases c with
      | nil => exact absurd hbc (by simp [strLtb])
      | cons z zs => rfl
  | cons x xs ih =>
    intro b c hab hbc
    cases b with
    | nil => exact absurd hab (by simp [strLtb])
    | cons y ys =>
      cases c with
      | nil => exact absurd hbc (by simp [strLtb])
      | cons z zs =>
        simp only [strLtb] at hab hbc ⊢
        split_ifs at hab hbc ⊢ <;>
          first
          | rfl
          | omega
          | (exact ih ys zs hab hbc)
          | simp_all

theorem strLtb_eq_of_not : ∀ a b : List Char,
    strLtb a b = false → strLtb b a = false → a = b := by
  intro a
  induction a with
  | nil =>
    intro b hab _
    cases b with
    | nil => rfl
    | cons y ys => exact absurd hab (by simp [strLtb])
  | cons x xs ih =>
    intro b hab hba
    cases b with
    | nil => exact absurd hba (by simp [strLtb])
    | cons y ys =>
      simp only [strLtb] at hab hba
      split_ifs at hab hba <;>
        first
        | exact Bool.noConfusion hab
        | exact Bool.noConfusion hba
        | skip
      have hxy : x = y := char_eq_of_toNat (by omega)
      subst hxy
      rw [ih ys hab hba]

theorem strLe_refl (a : String) : strLe a a = true := by
  simp [strLe, strLt, strLtb_irrefl]

theorem strLtb_cotrans {a b c : List Char} (h : strLtb c a = true) :
    strLtb c b = true ∨ strLtb b a = true := by
  cases hba : strLtb b a with
  | true => exact Or.inr rfl
  | false =>
    cases hab : strLtb a b with
    | true => exact Or.inl (strLtb_trans c a b h hab)
    | false =>
      have : a = b := strLtb_eq_of_not a b hab hba
      subst this
      exact Or.inl h

theorem strLe_trans {a b c : String} (h1 : strLe a b = true) (h2 : strLe b c = true) :
    strLe a c = true := by
  simp only [strLe, strLt, Bool.not_eq_true'] at h1 h2 ⊢
  cases hca : strLtb c.data a.data with
  | false => rfl
  | true =>
    rcases strLtb_cotrans (b := b.data) hca with h | h
    · rw [h] at h2; exact h2
    · rw [h] at h1; exact h1

theorem strLe_lt_trans {a b c : String} (h1 : strLe a b = true)
    (h2 : strLt b c = true) : strLe a c = true := by
  simp only [strLe, strLt, Bool.not_eq_true'] at h1 h2 ⊢
  cases hca : strLtb c.data a.data with
  | false => rfl
  | true =>
    rcases strLtb_cotrans (b := b.data) hca with h | h
    · have hcon := strLtb_trans b.data c.data b.data h2 h
      rw [strLtb_irrefl] at hcon
      exact hcon.symm
    · rw [h] at h1; exact h1

theorem strLt_le_trans {a b c : String} (h1 : strLt a b = true)
    (h2 : strLe b c = true) : strLe a c = true := by
  simp only [strLe, strLt, Bool.not_eq_true'] at h1 h2 ⊢
  cases hca : strLtb c.data a.data with
  | false => rfl
  | true =>
    rcases strLtb_cotrans (b := b.data) hca with h | h
    · rw [h] at h2; exact h2
    · have hcon := strLtb_trans a.data b.data a.data h1 h
      rw [strLtb_irrefl] at hcon
      exact hcon.symm

theorem pqLe_trans {a b c : ℚ × String}
    (h1 : a.1 < b.1 ∨ (a.1 = b.1 ∧ strLe a.2 b.2 = true))
    (h2 : b.1 < c.1 ∨ (b.1 = c.1 ∧ strLe b.2 c.2 = true)) :
    a.1 < c.1 ∨ (a.1 = c.1 ∧ strLe a.2 c.2 = true) := by
  rcases h1 with h1 | ⟨e1, s1⟩ <;> rcases h2 with h2 | ⟨e2, s2⟩
  · exact Or.inl (lt_trans h1 h2)
  · exact Or.inl (e2 ▸ h1)
  · exact Or.inl (e1 ▸ h2)
  · exact Or.inr ⟨e1.trans e2, strLe_trans s1 s2⟩

theorem pqLe_of_not_lt {x y : ℚ × String} (h : ¬ pqLt y x) :
    x.1 < y.1 ∨ (x.1 = y.1 ∧ strLe x.2 y.2 = true) := by
  rw [pqLt, not_or, not_and] at h
  obtain ⟨h1, h2⟩ := h
  rcases lt_trichotomy x.1 y.1 with hlt | heq | hgt
  · exact Or.inl hlt
  · refine Or.inr ⟨heq, ?_⟩
    have hs : strLt y.2 x.2 = false := by
      cases hc : strLt y.2 x.2 with
      | false => rfl
      | true => exact absurd hc (by simpa using h2 heq.symm)
    simp [strLe, hs]
  · exact absurd hgt h1

theorem pqLt_le {x y : ℚ × String} (h : pqLt x y) :
    x.1 < y.1 ∨ (x.1 = y.1 ∧ strLe x.2 y.2 = true) := by
  rcases h with h | ⟨e, s⟩
  · exact Or.inl h
  · refine Or.inr ⟨e, ?_⟩
    have ha : strLt y.2 x.2 = false := by
      cases hc : strLt y.2 x.2 with
      | false => rfl
      | true =>
        have hcon := strLtb_trans x.2.data y.2.data x.2.data s hc
        rw [strLtb_irrefl] at hcon
        exact Bool.noConfusion hcon
    simp [strLe, ha]

theorem pqMinFold_spec : ∀ (xs : List (ℚ × String)) (x : ℚ × String),
    (pqMinFold x xs = x ∨ pqMinFold x xs ∈ xs) ∧
    (∀ z, (z = x ∨ z ∈ xs) →
      (pqMinFold x xs).1 < z.1 ∨
        ((pqMinFold x xs).1 = z.1 ∧ strLe (pqMinFold x xs).2 z.2 = true)) := by
  intro xs
  induction xs with
  | nil =>
    intro x
    refine ⟨Or.inl rfl, ?_⟩
    rintro z (rfl | h)
    · exact Or.inr ⟨rfl, strLe_refl _⟩
    · cases h
  | cons y ys ih =>
    intro x
    have hunf : pqMinFold x (y :: ys) = pqMinFold (if pqLt y x then y else x) ys := rfl
    obtain ⟨ihm, ihle⟩ := ih (if pqLt y x then y else x)
    constructor
    · rw [hunf]
      rcases ihm with he | hm
      · rw [he]
        split
        · exact Or.inr (List.mem_cons_self _ _)
        · exact Or.inl rfl
      · exact Or.inr (List.mem_cons_of_mem _ hm)
    · intro z hz0
      rw [hunf]
      rcases hz0 with heq | hz
      · rw [heq]
        by_cases hlt : pqLt y x
        · exact pqLe_trans (ihle y (Or.inl (by rw [if_pos hlt]))) (pqLt_le hlt)
        · exact ihle x (Or.inl (by rw [if_neg hlt]))
      · rcases List.mem_cons.mp hz with heq2 | hzys
        · rw [heq2]
          by_cases hlt : pqLt y x
          · exact ihle y (Or.inl (by rw [if_pos hlt]))
          · exact pqLe_trans (ihle x (Or.inl (by rw [if_neg hlt]))) (pqLe_of_not_lt hlt)
        · exact ihle z (Or.inr hzys)

theorem popMin_spec : ∀ (pq : List (ℚ × String)) (x : ℚ × String)
    (rest : List (ℚ × String)), popMin pq = some (x, rest) →
    x ∈ pq ∧ ∀ y ∈ pq, x.1 < y.1 ∨ (x.1 = y.1 ∧ strLe x.2 y.2 = true) := by
  intro pq x rest h
  cases pq with
  | nil => exact Option.noConfusion h
  | cons h0 t =>
    simp only [popMin, Option.some.injEq, Prod.mk.injEq] at h
    obtain ⟨hx, -⟩ := h
    subst hx
    obtain ⟨hm, hle⟩ := pqMinFold_spec t h0
    constructor
    · rcases hm with he | hm
      · rw [he]; exact List.mem_cons_self _ _
      · exact List.mem_cons_of_mem _ hm
    · intro y hy
      rcases List.mem_cons.mp hy with heq | hyt
      · rw [heq]; exact hle h0 (Or.inl rfl)
      · exact hle y (Or.inr hyt)

/-! Structural lemmas about reconstruction and leg building. -/

theorem zip_tail_map_fst : ∀ (l : List String),
    (l.zip l.tail).map Prod.fst = l.dropLast := by
  intro l
  induction l with
  | nil => rfl
  | cons a t ih =>
    cases t with
    | nil => rfl
    | cons b t2 =>
      simp only [List.tail_cons] at ih
      simp only [List.tail_cons, List.zip_cons_cons, List.map_cons, ih,
        List.dropLast_cons₂]

theorem zip_tail_map_snd : ∀ (l : List String),
    (l.zip l.tail).map Prod.snd = l.tail := by
  intro l
  cases l with
  | nil => rfl
  | cons a t => exact List.map_snd_zip _ _ (by simp only [List.length_cons, List.tail_cons]; omega)

theorem mkLegs_fromIds (pred : List (String × (String × String))) (ids : List String) :
    (mkLegs pred ids).map Leg.fromId = ids.dropLast := by
  rw [mkLegs, List.map_map]
  have : (Leg.fromId ∘ fun p : String × String =>
      ({ fromId := p.1, toId := p.2,
         method := ((alookup pred p.2).map (fun pr => pr.2)).getD "unknown" } : Leg)) =
      Prod.fst := rfl
  rw [this, zip_tail_map_fst]

theorem mkLegs_toIds (pred : List (String × (String × String))) (ids : List String) :
    (mkLegs pred ids).map Leg.toId = ids.tail := by
  rw [mkLegs, List.map_map]
  have : (Leg.toId ∘ fun p : String × String =>
      ({ fromId := p.1, toId := p.2,
         method := ((alookup pred p.2).map (fun pr => pr.2)).getD "unknown" } : Leg)) =
      Prod.snd := rfl
  rw [this, zip_tail_map_snd]

theorem mkPathNodes_ids (m : List (String × SysRec)) (ids : List String) :
    (mkPathNodes m ids).map PathNode.id = ids := by
  rw [mkPathNodes, List.map_map]
  have : (PathNode.id ∘ fun i =>
      ({ id := i, name := ((alookup m i).getD default).name,
         x := ((alookup m i).getD default).x, y := ((alookup m i).getD default).y,
         position := ((alookup m i).getD default).position } : PathNode)) = id := rfl
  rw [this, List.map_id]

/-- Every response the reconstruction stage produces has one leg per
consecutive pair of path nodes. -/
theorem routeStage_legs_align (fuel : ℕ) (g : Graph) (sid eid : String) :
    ∀ legs, (routeStage fuel g sid eid).legs = some legs →
      legs.map Leg.fromId = ((routeStage fuel g sid eid).path.map PathNode.id).dropLast ∧
      legs.map Leg.toId = ((routeStage fuel g sid eid).path.map PathNode.id).tail := by
  intro legs hl
  simp only [routeStage] at hl ⊢
  set st := searchLoop g eid fuel (initState sid) with hst
  set ids := (walkPreds st.pred (g.nodes.length + 1) eid).reverse with hids
  rcases htd : alookup st.dist eid with _ | td
  · simp only [htd] at hl ⊢
    simp only [Option.some.injEq] at hl
    subst hl
    simp
  · simp only [htd] at hl ⊢
    by_cases hhead : ids.head? = some sid
    · rw [if_pos hhead] at hl ⊢
      by_cases hlen : ids.length ≤ 1
      · rw [if_pos hlen] at hl ⊢
        simp only [Option.some.injEq] at hl
        subst hl
        rcases hi : ids with _ | ⟨a, t⟩
        · simp [mkPathNodes]
        · rw [hi] at hlen
          cases t with
          | nil => simp [mkPathNodes]
          | cons b t2 => simp at hlen
      · rw [if_neg hlen] at hl ⊢
        simp only [Option.some.injEq] at hl
        subst hl
        exact ⟨by rw [mkLegs_fromIds, mkPathNodes_ids],
               by rw [mkLegs_toIds, mkPathNodes_ids]⟩
    · rw [if_neg hhead] at hl ⊢
      simp only [Option.some.injEq] at hl
      subst hl
      simp

/-- C3 (amended): every successful response that carries a leg list has
exactly one leg per consecutive pair of path nodes -- the legs' from-ids
are the path ids without the last, the to-ids the path ids without the
first; consecutive same-method steps are not folded. -/
theorem calculatePath_legs_shape (fuel : ℕ) (snap : Snapshot) (ufid : Option String)
    (req : PathRequest) (path : List PathNode) (legs : List Leg) (dist : Option ℚ)
    (h : calculatePath fuel snap ufid req = Except.ok ⟨path, some legs, dist⟩) :
    legs.map Leg.fromId = (path.map PathNode.id).dropLast ∧
    legs.map Leg.toId = (path.map PathNode.id).tail := by
  rcases hs : req.startInput with _ | si <;> rcases he : req.endInput with _ | ei <;>
    simp only [calculatePath, hs, he] at h
  iterate 3 exact Except.noConfusion h
  split_ifs at h with h1 h2
  · simp only [Except.ok.injEq, RouteResponse.mk.injEq] at h
    exact Option.noConfusion h.2.1
  split at h
  · exact Except.noConfusion h
  · split at h
    · exact Except.noConfusion h
    · split_ifs at h with h3
      rename_i x1 se hse x2 ee hee
      have hr := Except.ok.inj h
      obtain ⟨ha, hb⟩ := routeStage_legs_align fuel
        { nodes := ee.2,
          wormPairs := snap.wormholes.map (fun w => sortPair w.1 w.2),
          relationships := buildRelationships ufid snap.relRows,
          slowNames := buildSlowNames req.avoidSlow snap.regionRows,
          userFaction := ufid, avoidSlow := req.avoidSlow,
          avoidHostile := req.avoidHostile } se.1 ee.1 legs (by rw [hr])
      rw [hr] at ha hb
      exact ⟨ha, hb⟩

/-! Plumbing lemmas connecting request handling to the route stage. -/

/-- C10: with no system rows at all, the engine answers the no-route
response (empty path, no detailed-path key, null distance) before any
endpoint parsing or validation takes place. -/
theorem calculatePath_empty_snapshot (fuel : ℕ) (snap : Snapshot)
    (ufid : Option String) (req : PathRequest) (si ei : String)
    (hsys : snap.systems = []) (hs : req.startInput = some si) (hsi : si ≠ "")
    (he : req.endInput = some ei) (hei : ei ≠ "") :
    calculatePath fuel snap ufid req =
      Except.ok { path := [], legs := none, distance := none } := by
  simp only [calculatePath, hs, he]
  rw [if_neg (by push_neg; exact ⟨hsi, hei⟩)]
  rw [if_pos (by rw [hsys]; rfl)]

/-- A request with a missing start or end field is rejected as a
validation error. -/
theorem calculatePath_missing_field (fuel : ℕ) (snap : Snapshot)
    (ufid : Option String) (req : PathRequest)
    (h : req.startInput = none ∨ req.endInput = none) :
    calculatePath fuel snap ufid req = Except.error ApiError.validationError := by
  rcases hs : req.startInput with _ | s <;> rcases he : req.endInput with _ | e <;>
    simp only [calculatePath, hs, he]
  rw [hs, he] at h
  rcases h with h | h <;> exact Option.noConfusion h

/-- A bare-position start endpoint whose literal does not parse is
rejected as a validation error whenever the snapshot is nonempty. -/
theorem calculatePath_bad_position (fuel : ℕ) (snap : Snapshot)
    (ufid : Option String) (req : PathRequest) (s lit : String)
    (hs : req.startInput = some s) (hpos : posArg s = some lit)
    (hbad : parseDecimal lit = none) (hsys : snap.systems ≠ []) :
    calculatePath fuel snap ufid req = Except.error ApiError.validationError := by
  have hsne : s ≠ "" := by
    intro h0
    rw [h0] at hpos
    exact Option.noConfusion hpos
  have hres : resolveEndpoint "virtual_start" s (buildSystemsMap snap.systems) =
      Except.error ApiError.validationError := by
    rw [resolveEndpoint, hpos]
    simp only [hbad]
  rcases he : req.endInput with _ | ei
  · simp only [calculatePath, hs, he]
  · simp only [calculatePath, hs, he]
    by_cases hei : ei = ""
    · rw [if_pos (Or.inr hei)]
    · rw [if_neg (by push_neg; exact ⟨hsne, hei⟩)]
      rw [if_neg (by simpa [List.isEmpty_iff] using hsys)]
      rw [hres]

/-- After a successful resolution of both endpoints that are present in
the node table, the engine's answer is exactly the reconstruction stage's
response on the assembled graph. -/
theorem calculatePath_resolved (fuel : ℕ) (snap : Snapshot)
    (ufid : Option String) (req : PathRequest) (si ei sid eid : String)
    (m1 m2 : List (String × SysRec))
    (hs : req.startInput = some si) (he : req.endInput = some ei)
    (hsi : si ≠ "") (hei : ei ≠ "") (hsys : ¬ snap.systems.isEmpty = true)
    (hr1 : resolveEndpoint "virtual_start" si (buildSystemsMap snap.systems) =
      Except.ok (sid, m1))
    (hr2 : resolveEndpoint "virtual_end" ei m1 = Except.ok (eid, m2))
    (hp1 : (alookup m2 sid).isSome = true) (hp2 : (alookup m2 eid).isSome = true) :
    calculatePath fuel snap ufid req = Except.ok (routeStage fuel
      { nodes := m2, wormPairs := snap.wormholes.map (fun w => sortPair w.1 w.2),
        relationships := buildRelationships ufid snap.relRows,
        slowNames := buildSlowNames req.avoidSlow snap.regionRows,
        userFaction := ufid, avoidSlow := req.avoidSlow,
        avoidHostile := req.avoidHostile } sid eid) := by
  simp only [calculatePath, hs, he]
  rw [if_neg (by push_neg; exact ⟨hsi, hei⟩)]
  rw [if_neg hsys]
  split
  · rename_i e1 heq
    rw [hr1] at heq
    exact Except.noConfusion heq
  · rename_i se heq
    rw [hr1] at heq
    obtain rfl := (Except.ok.inj heq).symm
    split
    · rename_i e2 heq2
      rw [show ((sid, m1).2 : List (String × SysRec)) = m1 from rfl, hr2] at heq2
      exact Except.noConfusion heq2
    · rename_i ee heq2
      rw [show ((sid, m1).2 : List (String × SysRec)) = m1 from rfl, hr2] at heq2
      obtain rfl := (Except.ok.inj heq2).symm
      rw [if_pos ⟨hp1, hp2⟩]

/-! Theorems settling the individual claims. -/

theorem sublightDist_zero_ten : sublightDist 0 10 = 10 := by
  rw [sublightDist, show |(0:ℚ) - 10| = 10 by norm_num]
  exact_mod_cast floatRound_natCast 10 (by norm_num)

theorem floatRound_tenth :
    floatRound (1/10 : ℚ) = 3602879701896397 / 36028797018963968 := by
  have ht : (56 : ℤ).toNat = 56 := rfl
  have hm : roundHalfEven ((36028797018963968 : ℚ) / 5) = 7205759403792794 := by
    norm_num [roundHalfEven]
  norm_num [floatRound, floatRoundPos, ratLog2, clogAux, ht, hm, Rat.den]

/-- C1 counterexample: with slow-region avoidance active on a slow edge out
of a catapult system, the partial-catapult replacement runs after the
penalty and discards it: the edge from position 0 to 10 with radius 4
costs 6, not (10 - 4) * 100 = 600. -/
theorem C1_counterexample :
    gSlowCat.avoidSlow = true ∧ slowTravel gSlowCat recSlowCat recFarPlain = true ∧
    catapultAllowed gSlowCat recSlowCat = true ∧
    0 < recSlowCat.radius ∧ recSlowCat.radius < sublightDist 0 10 ∧
    edgeCost gSlowCat "1" "2" recSlowCat recFarPlain 0 10 = (6, "catapult_sublight") ∧
    (6 : ℚ) ≠ (sublightDist 0 10 - recSlowCat.radius) * 100 := by
  refine ⟨rfl, rfl, rfl, by norm_num [recSlowCat], ?_, ?_, ?_⟩
  · rw [sublightDist_zero_ten]; norm_num [recSlowCat]
  · norm_num [edgeCost, preWormCost, wormBlocked, ownerAtWar, hostileEdge,
      slowTravel, regionSlow, catapultAllowed, gSlowCat, recSlowCat, recFarPlain,
      sublightDist_zero_ten]
  · rw [sublightDist_zero_ten]; norm_num [recSlowCat]

/-- C1 (amended): the slow-region and hostile penalties run before the
catapult step, which then replaces the penalized cost outright: whenever
catapult access is granted, the distance strictly exceeds the radius, the
slow penalty is active and the pair is not a wormhole, the edge cost is the
bare partial-catapult value `sublight_dist - radius` with no penalty factor
surviving. -/
theorem C1_penalties_before_catapult (g : Graph) (cid nid : String)
    (cur nb : SysRec) (pc pn : ℚ)
    (hcat : catapultAllowed g cur = true) (hrad : 0 < cur.radius)
    (hsd : cur.radius < sublightDist pc pn)
    (hslow : g.avoidSlow = true ∧ slowTravel g cur nb = true)
    (hworm : sortPair cid nid ∉ g.wormPairs) :
    edgeCost g cid nid cur nb pc pn =
      (sublightDist pc pn - cur.radius, "catapult_sublight") := by
  have h0 : (0 : ℚ) < sublightDist pc pn := lt_trans hrad hsd
  simp only [edgeCost, preWormCost]
  rw [if_neg hworm, if_pos hslow]
  by_cases hh : g.avoidHostile = true ∧ hostileEdge g cur nb = true
  · rw [if_pos hh, if_pos hrad, if_pos hcat, if_neg (not_le.mpr hsd),
      if_pos (show sublightDist pc pn - cur.radius <
        ((sublightDist pc pn * 100, "sublight").1 * 100,
          (sublightDist pc pn * 100, "sublight").2).1 by simp only; linarith)]
  · rw [if_neg hh, if_pos hrad, if_pos hcat, if_neg (not_le.mpr hsd),
      if_pos (show sublightDist pc pn - cur.radius <
        (sublightDist pc pn * 100, "sublight").1 by simp only; linarith)]

/-- Witness for the amended C1 theorem at the concrete slow catapult edge. -/
theorem C1_witness :
    edgeCost gSlowCat "1" "2" recSlowCat recFarPlain 0 10 =
      (sublightDist 0 10 - recSlowCat.radius, "catapult_sublight") :=
  C1_penalties_before_catapult gSlowCat "1" "2" recSlowCat recFarPlain 0 10 rfl
    (by norm_num [recSlowCat])
    (by rw [sublightDist_zero_ten]; norm_num [recSlowCat])
    ⟨rfl, rfl⟩ (by simp [gSlowCat])

/-- C2 counterexample: Scenario A's actual response carries a sublight
first leg and distance 5, not a catapult first leg and distance 0. -/
theorem C2_counterexample :
    calculatePath 10 snapScenarioA none reqScenarioA = Except.ok respA ∧
    respA.legs = some [⟨"1", "2", "sublight"⟩, ⟨"2", "3", "wormhole"⟩] ∧
    respA.distance = some 5 ∧
    respA.legs ≠ some [⟨"1", "2", "catapult"⟩, ⟨"2", "3", "wormhole"⟩] ∧
    respA.distance ≠ some 0 := by
  refine ⟨scenarioA_run, rfl, rfl, ?_, ?_⟩ <;> decide

/-- C2 (amended): Scenario A returns the path [S1, S2, S3] with legs
[{S1, S2, sublight}, {S2, S3, wormhole}] and distance 5.00: the catapult of
S2 is read from the departing node, so the first leg is plain sublight, and
only the second leg crosses the wormhole for free. -/
theorem C2_scenarioA :
    calculatePath 10 snapScenarioA none reqScenarioA = Except.ok
      { path := [⟨"1", "S1", 0, 0, some 0⟩, ⟨"2", "S2", 0, 0, some 5⟩,
                 ⟨"3", "S3", 0, 0, some 12⟩],
        legs := some [⟨"1", "2", "sublight"⟩, ⟨"2", "3", "wormhole"⟩],
        distance := some 5 } :=
  scenarioA_run

/-- C3 counterexample: the slow-chain route answers with two consecutive
legs that carry the same method, so consecutive same-method steps are not
folded into one leg record. -/
theorem C3_counterexample :
    calculatePath 10 snapSlowChain none reqSlowChain = Except.ok respB ∧
    ∃ l1 l2 rest, respB.legs = some (l1 :: l2 :: rest) ∧ l1.method = l2.method := by
  exact ⟨slowChain_run, ⟨"1", "2", "sublight"⟩, ⟨"2", "3", "sublight"⟩, [], rfl, rfl⟩

/-- Witness: the slow-chain response's two legs align one-to-one with the
consecutive pairs of its three-node path. -/
theorem C3_witness :
    ([⟨"1", "2", "sublight"⟩, ⟨"2", "3", "sublight"⟩] : List Leg).map Leg.fromId =
      (respB.path.map PathNode.id).dropLast ∧
    ([⟨"1", "2", "sublight"⟩, ⟨"2", "3", "sublight"⟩] : List Leg).map Leg.toId =
      (respB.path.map PathNode.id).tail :=
  calculatePath_legs_shape 10 snapSlowChain none reqSlowChain respB.path
    [⟨"1", "2", "sublight"⟩, ⟨"2", "3", "sublight"⟩] respB.distance slowChain_run

/-- C4: catapult access is granted iff the current system is unowned, owned
by the traveler's faction, or owned by an allied faction; when denied (in
particular for a strictly neutral owner) neither catapult method can be
produced on any edge leaving that system. -/
theorem C4_catapult_gating (g : Graph) (cur : SysRec) :
    (catapultAllowed g cur = true ↔
      cur.owner = none ∨ ∃ o, cur.owner = some o ∧
        (g.userFaction = some o ∨ alookup g.relationships o = some "allied")) ∧
    (∀ cid nid nb pc pn, catapultAllowed g cur = false →
      (edgeCost g cid nid cur nb pc pn).2 ≠ "catapult" ∧
      (edgeCost g cid nid cur nb pc pn).2 ≠ "catapult_sublight") := by
  constructor
  · rcases ho : cur.owner with _ | o
    · simp [catapultAllowed, ho]
    · simp [catapultAllowed, ho]
  · intro cid nid nb pc pn hdeny
    simp only [edgeCost, preWormCost, hdeny, Bool.false_eq_true, if_false]
    constructor <;> split_ifs <;> simp

/-- Witness: the strictly neutral owner "9" denies the catapult of the
departure system to the traveler of faction "7". -/
theorem C4_witness :
    (edgeCost gNeutralOwner "1" "2" recNeutralOwned recFarPlain 0 10).2 ≠ "catapult" ∧
    (edgeCost gNeutralOwner "1" "2" recNeutralOwned recFarPlain 0 10).2 ≠
      "catapult_sublight" :=
  (C4_catapult_gating gNeutralOwner recNeutralOwned).2 "1" "2" recFarPlain 0 10 rfl

/-- C5: a registered wormhole pair whose endpoints have no owner at war
with the traveler replaces any still-positive cost by a free wormhole leg;
blocking happens exactly on a war-status owner, and an absent owner or one
with no relationship record never blocks. -/
theorem C5_wormhole_access (g : Graph) (cid nid : String) (cur nb : SysRec)
    (pc pn : ℚ) (hmem : sortPair cid nid ∈ g.wormPairs) :
    (wormBlocked g cur nb = false → 0 < (preWormCost g cur nb pc pn).1 →
      edgeCost g cid nid cur nb pc pn = (0, "wormhole")) ∧
    (wormBlocked g cur nb = true ↔ ownerAtWar g cur = true ∨ ownerAtWar g nb = true) ∧
    (cur.owner = none → ownerAtWar g cur = false) ∧
    (∀ o, cur.owner = some o → alookup g.relationships o = none →
      ownerAtWar g cur = false) := by
  refine ⟨?_, ?_, ?_, ?_⟩
  · intro hb hc
    simp only [edgeCost]
    rw [if_pos hmem, if_pos hb, if_pos hc]
  · simp [wormBlocked]
  · intro h
    simp [ownerAtWar, h]
  · intro o ho hn
    simp [ownerAtWar, ho, hn]

/-- Witness: the unowned wormhole pair ("1", "2") turns the cost-10 edge
into a free wormhole leg. -/
theorem C5_witness :
    edgeCost gWorm "1" "2" recOrigin recFarPlain 0 10 = (0, "wormhole") := by
  have hc : (0 : ℚ) < (preWormCost gWorm recOrigin recFarPlain 0 10).1 := by
    norm_num [preWormCost, gWorm, recOrigin, recFarPlain, slowTravel, regionSlow,
      hostileEdge, ownerAtWar, sublightDist_zero_ten]
  exact (C5_wormhole_access gWorm "1" "2" recOrigin recFarPlain 0 10
    (by simp [gWorm, show sortPair "1" "2" = ("1", "2") from rfl])).1 rfl hc

/-- C6: when both endpoints resolve and sit in the node table but the
search leaves the target's distance infinite, the engine answers the
normal no-route success (empty path, empty legs, null distance), not an
error. -/
theorem C6_unreachable_no_route (fuel : ℕ) (snap : Snapshot) (ufid : Option String)
    (req : PathRequest) (si ei sid eid : String) (m1 m2 : List (String × SysRec))
    (hs : req.startInput = some si) (he : req.endInput = some ei)
    (hsi : si ≠ "") (hei : ei ≠ "") (hsys : ¬ snap.systems.isEmpty = true)
    (hr1 : resolveEndpoint "virtual_start" si (buildSystemsMap snap.systems) =
      Except.ok (sid, m1))
    (hr2 : resolveEndpoint "virtual_end" ei m1 = Except.ok (eid, m2))
    (hp1 : (alookup m2 sid).isSome = true) (hp2 : (alookup m2 eid).isSome = true)
    (hinf : alookup (searchLoop
      { nodes := m2, wormPairs := snap.wormholes.map (fun w => sortPair w.1 w.2),
        relationships := buildRelationships ufid snap.relRows,
        slowNames := buildSlowNames req.avoidSlow snap.regionRows,
        userFaction := ufid, avoidSlow := req.avoidSlow,
        avoidHostile := req.avoidHostile } eid fuel (initState sid)).dist eid = none) :
    calculatePath fuel snap ufid req =
      Except.ok { path := [], legs := some [], distance := none } := by
  rw [calculatePath_resolved fuel snap ufid req si ei sid eid m1 m2 hs he hsi hei hsys
    hr1 hr2 hp1 hp2]
  simp only [routeStage]
  rw [hinf]

/-- Witness: in the NULL-position snapshot system 2 is unreachable and the
engine answers the empty no-route response. -/
theorem C6_witness :
    calculatePath 10 snapNullPos none reqNullPos =
      Except.ok { path := [], legs := some [], distance := none } := by
  have hmap : buildSystemsMap snapNullPos.systems = [("1", recN1), ("2", recN2)] := by
    simp [buildSystemsMap, snapNullPos, recN1, recN2,
      (show parseDecimal "0" = some 0 from rfl)]
  have h1 : searchStep
      ({ nodes := [("1", recN1), ("2", recN2)], wormPairs := [], relationships := [],
         slowNames := [], userFaction := none, avoidSlow := false,
         avoidHostile := false } : Graph) "2" (initState "1") =
      .cont { dist := [("1", 0)], pred := [], pq := [] } := by
    have a1 : alookup [(("1" : String), (0 : ℚ))] "1" = some 0 := rfl
    have a2 : alookup [(("1" : String), recN1), ("2", recN2)] "1" = some recN1 := rfl
    have q1 : ¬ ((0 : ℚ) < 0) := by norm_num
    simp [searchStep, initState, popMin, pqMinFold, eraseFirst, relaxAll, pqLt,
      a1, a2, q1,
      (show recN1.position = some 0 from rfl),
      (show recN2.position = (none : Option ℚ) from rfl)]
  have h2 : searchStep
      ({ nodes := [("1", recN1), ("2", recN2)], wormPairs := [], relationships := [],
         slowNames := [], userFaction := none, avoidSlow := false,
         avoidHostile := false } : Graph) "2"
      { dist := [("1", 0)], pred := [], pq := [] } =
      .done { dist := [("1", 0)], pred := [], pq := [] } := by
    simp [searchStep, popMin]
  have hinf : alookup (searchLoop
      ({ nodes := [("1", recN1), ("2", recN2)], wormPairs := [], relationships := [],
         slowNames := [], userFaction := none, avoidSlow := false,
         avoidHostile := false } : Graph) "2" 10 (initState "1")).dist "2" = none := by
    have hloop : searchLoop
        ({ nodes := [("1", recN1), ("2", recN2)], wormPairs := [], relationships := [],
           slowNames := [], userFaction := none, avoidSlow := false,
           avoidHostile := false } : Graph) "2" 10 (initState "1") =
        { dist := [("1", 0)], pred := [], pq := [] } := by
      simp only [searchLoop, h1, h2]
    rw [hloop]
    rfl
  have hr1 : resolveEndpoint "virtual_start" "id:1" (buildSystemsMap snapNullPos.systems) =
      Except.ok ("1", [("1", recN1), ("2", recN2)]) := by
    rw [hmap]
    rfl
  have hr2 : resolveEndpoint "virtual_end" "id:2" [("1", recN1), ("2", recN2)] =
      Except.ok ("2", [("1", recN1), ("2", recN2)]) := rfl
  exact C6_unreachable_no_route 10 snapNullPos none reqNullPos "id:1" "id:2" "1" "2"
    [("1", recN1), ("2", recN2)] [("1", recN1), ("2", recN2)]
    rfl rfl (by decide) (by decide) (by decide) hr1 hr2 rfl rfl hinf

/-- C7: a missing start or end field, or a bare-position endpoint whose
numeric literal does not parse, is rejected with a validation error and is
never coerced to a position. -/
theorem C7_validation_errors (fuel : ℕ) (snap : Snapshot) (ufid : Option String)
    (req : PathRequest) :
    (req.startInput = none ∨ req.endInput = none →
      calculatePath fuel snap ufid req = Except.error ApiError.validationError) ∧
    (∀ s lit, req.startInput = some s → posArg s = some lit →
      parseDecimal lit = none → snap.systems ≠ [] →
      calculatePath fuel snap ufid req = Except.error ApiError.validationError) ∧
    (∀ s e lit sid m1, req.startInput = some s → req.endInput = some e → s ≠ "" →
      resolveEndpoint "virtual_start" s (buildSystemsMap snap.systems) =
        Except.ok (sid, m1) →
      posArg e = some lit → parseDecimal lit = none → snap.systems ≠ [] →
      calculatePath fuel snap ufid req = Except.error ApiError.validationError) := by
  refine ⟨calculatePath_missing_field fuel snap ufid req, ?_, ?_⟩
  · intro s lit hs hpos hbad hsys
    exact calculatePath_bad_position fuel snap ufid req s lit hs hpos hbad hsys
  · intro s e lit sid m1 hs he hsne hr1 hpos hbad hsys
    have hene : e ≠ "" := by
      intro h0
      rw [h0] at hpos
      exact Option.noConfusion hpos
    have hres2 : resolveEndpoint "virtual_end" e m1 =
        Except.error ApiError.validationError := by
      rw [resolveEndpoint, hpos]
      simp only [hbad]
    simp only [calculatePath, hs, he]
    rw [if_neg (by push_neg; exact ⟨hsne, hene⟩)]
    rw [if_neg (by simpa [List.isEmpty_iff] using hsys)]
    split
    · rename_i e1 heq
      rw [hr1] at heq
      exact Except.noConfusion heq
    · rename_i se heq
      rw [hr1] at heq
      obtain rfl := (Except.ok.inj heq).symm
      rw [show ((sid, m1).2 : List (String × SysRec)) = m1 from rfl, hres2]

/-- Witness: the unparsable start literal "pos:abc" is rejected on the
two-system snapshot. -/
theorem C7_witness :
    calculatePath 10 snapNullPos none reqBadStart =
      Except.error ApiError.validationError :=
  (C7_validation_errors 10 snapNullPos none reqBadStart).2.1 "pos:abc" "abc"
    rfl rfl rfl (by simp [snapNullPos])

/-- C8: the engine is a pure function of snapshot, faction and request, so
two runs on identical inputs agree; and the frontier pop always extracts a
member that is minimal primarily by distance and secondarily by the node
id in ascending string order. -/
theorem C8_deterministic_tiebreak (fuel : ℕ) (snap : Snapshot)
    (ufid : Option String) (req : PathRequest) :
    calculatePath fuel snap ufid req = calculatePath fuel snap ufid req ∧
    (∀ pq x rest, popMin pq = some (x, rest) →
      x ∈ pq ∧ ∀ y ∈ pq, x.1 < y.1 ∨ (x.1 = y.1 ∧ strLe x.2 y.2 = true)) :=
  ⟨rfl, popMin_spec⟩

/-- Witness: on the tied frontier [(5, "b"), (5, "a")] the pop takes the
entry with the smaller id "a". -/
theorem C8_witness :
    ((5 : ℚ), "a") ∈ [((5 : ℚ), "b"), ((5 : ℚ), "a")] ∧
    ∀ y ∈ [((5 : ℚ), "b"), ((5 : ℚ), "a")],
      ((5 : ℚ), "a").1 < y.1 ∨ (((5 : ℚ), "a").1 = y.1 ∧ strLe "a" y.2 = true) :=
  (C8_deterministic_tiebreak 0 snapEmpty none reqNullPos).2
    [((5 : ℚ), "b"), ((5 : ℚ), "a")] ((5 : ℚ), "a") [((5 : ℚ), "b")] (by decide)

/-- C9 counterexample: the position difference 0.1 is converted through
binary64 floating point, so the sublight baseline of the edge from
position 0 to position 0.1 is the dyadic 3602879701896397/2^55 rather
than the exact decimal 1/10. -/
theorem C9_counterexample :
    edgeCost gPlain "a" "b" recOrigin recTenth 0 (1/10) =
      (3602879701896397 / 36028797018963968, "sublight") ∧
    (3602879701896397 / 36028797018963968 : ℚ) ≠ |(0 : ℚ) - 1/10| := by
  have habs : |(0 : ℚ) - 1/10| = 1/10 := by
    rw [zero_sub, abs_neg]
    exact abs_of_pos (by norm_num)
  have habs2 : |(1 : ℚ)/10| = 1/10 := abs_of_pos (by norm_num)
  constructor
  · norm_num [edgeCost, preWormCost, sublightDist, wormBlocked, ownerAtWar,
      hostileEdge, slowTravel, regionSlow, catapultAllowed, gPlain, recOrigin,
      recTenth, habs, habs2, floatRound_tenth]
  · rw [habs]
    norm_num

/-- C9 (amended): the sublight baseline is the binary64 rounding of the
exact position difference; it is exact whenever that difference is an
integer of magnitude at most 2^52. -/
theorem C9_integer_positions_exact (pa pb : ℤ) (h : |pa - pb| ≤ 2 ^ 52) :
    sublightDist (pa : ℚ) (pb : ℚ) = |(pa : ℚ) - (pb : ℚ)| := by
  have hd : ((pa : ℚ) - (pb : ℚ)) = (((pa - pb : ℤ)) : ℚ) := by push_cast; ring
  have habs : |(pa : ℚ) - (pb : ℚ)| = (((pa - pb).natAbs : ℕ) : ℚ) := by
    rw [hd, ← Int.cast_abs, ← Int.cast_natAbs]
  rw [sublightDist, habs]
  refine floatRound_natCast _ ?_
  have h5 := (abs_le.mp h).1
  have h6 := (abs_le.mp h).2
  norm_num at h5 h6 ⊢
  omega

/-- Witness: integer positions 0 and 7 give the exact sublight distance 7. -/
theorem C9_witness :
    sublightDist ((0 : ℤ) : ℚ) ((7 : ℤ) : ℚ) = |((0 : ℤ) : ℚ) - ((7 : ℤ) : ℚ)| :=
  C9_integer_positions_exact 0 7 (by norm_num)

/-- Witness: even a request whose two endpoints are unparsable bare
positions gets the no-route response on the empty snapshot, with no
validation performed. -/
theorem C10_witness :
    calculatePath 10 snapEmpty none reqBadBoth =
      Except.ok { path := [], legs := none, distance := none } :=
  calculatePath_empty_snapshot 10 snapEmpty none reqBadBoth "pos:abc" "pos:xyz"
    rfl rfl (by decide) rfl (by decide)

end StarMap
